import Mathlib

/-
Verification development for the landmark-hunt JSON processing dashboards
(`LH_json_processor.py` and `LH_data_explorer.py`).

The two Python source files are shallowly embedded below.  JSON values are
modelled by `JValue` (Python `None` and JSON `null` coincide, as they do after
`json.loads`); JSON numbers are modelled as exact rationals.  Python-level
failures (`json.JSONDecodeError`, `AttributeError`, `TypeError`, date-parse
errors) are modelled with the `Except PyErr` monad.  External libraries at the
boundary (`pyproj`/`geopandas` reprojection and the planar convex-hull area,
both out of scope per the specification) are passed in as explicit function
parameters `project` and `hullArea`; `pandas` date parsing is modelled for the
ISO `YYYY-MM-DD` date strings of the input schema, and `np.mean` as the exact
rational mean of the present values.
-/

inductive PyErr where
  | jsonDecodeError : PyErr
  | attributeError : PyErr
  | typeError : PyErr
  | valueError : PyErr
  deriving DecidableEq

/-- Result monad for embedded Python code: either a value or a raised error. -/
abbrev Py (α : Type) := Except PyErr α

/-- A parsed JSON value.  `null` also stands for Python `None`. -/
inductive JValue where
  | null : JValue
  | bool (b : Bool) : JValue
  | num (q : ℚ) : JValue
  | str (s : String) : JValue
  | arr (elems : List JValue) : JValue
  | obj (fields : List (String × JValue)) : JValue

mutual

def jbeq : JValue → JValue → Bool
  | .null, .null => true
  | .bool a, .bool b => a == b
  | .num a, .num b => a == b
  | .str a, .str b => a == b
  | .arr as, .arr bs => jbeqArr as bs
  | .obj as, .obj bs => jbeqObj as bs
  | _, _ => false

def jbeqArr : List JValue → List JValue → Bool
  | [], [] => true
  | a :: as, b :: bs => jbeq a b && jbeqArr as bs
  | _, _ => false

def jbeqObj : List (String × JValue) → List (String × JValue) → Bool
  | [], [] => true
  | (k, a) :: as, (l, b) :: bs => k == l && jbeq a b && jbeqObj as bs
  | _, _ => false

end

/-- First-match lookup in a JSON object's field list (Python `dict` lookup;
`json.loads` produces unique keys). -/
def lookupField : List (String × JValue) → String → Option JValue
  | [], _ => none
  | (k, v) :: rest, key => if k = key then some v else lookupField rest key

def isObj : JValue → Bool
  | .obj _ => true
  | _ => false

/-- Python truthiness of a JSON value. -/
def truthy : JValue → Bool
  | .null => false
  | .bool b => b
  | .num q => q ≠ 0
  | .str s => s ≠ ""
  | .arr es => !es.isEmpty
  | .obj fs => !fs.isEmpty

/-- Python iteration `for x in v`: lists yield elements, strings yield
one-character strings, dicts yield their keys; other values raise `TypeError`. -/
def pyIter : JValue → Py (List JValue)
  | .arr es => .ok es
  | .str s => .ok (s.data.map (fun c => .str (String.mk [c])))
  | .obj fs => .ok (fs.map (fun kv => .str kv.1))
  | _ => .error .typeError

/-- Numeric coercion as used by Python arithmetic and `np.mean`: numbers are
themselves, booleans are 0/1, anything else raises `TypeError`. -/
def pyToRat : JValue → Py ℚ
  | .num q => .ok q
  | .bool b => .ok (if b then 1 else 0)
  | _ => .error .typeError

/-- Python `len`. -/
def pyLen : JValue → Py ℕ
  | .arr es => .ok es.length
  | .str s => .ok s.data.length
  | .obj fs => .ok fs.length
  | _ => .error .typeError

def ratAll : List JValue → Py (List ℚ)
  | [] => .ok []
  | v :: vs => do
    let q ← pyToRat v
    let qs ← ratAll vs
    .ok (q :: qs)

/-- Exact model of `np.mean` over a (nonempty in all call sites) value list. -/
def npMean (l : List JValue) : Py ℚ := do
  let qs ← ratAll l
  .ok (qs.sum / qs.length)

/-- Python `v == s` for a JSON value against a string literal. -/
def jeqStr (v : JValue) (s : String) : Bool :=
  match v with
  | .str t => t = s
  | _ => false

/-- Python `a or b`: the first operand if it is truthy, otherwise the second. -/
def pyOr (a b : JValue) : JValue :=
  if truthy a then a else b

/-- Dict assignment `d[k] = v`: replace in place if the key exists, else append. -/
def updateAssoc : List (String × JValue) → String → JValue → List (String × JValue)
  | [], key, v => [(key, v)]
  | (k, w) :: rest, key, v =>
    if k = key then (k, v) :: rest else (k, w) :: updateAssoc rest key v

def lookupAssoc : List (String × JValue) → String → Option JValue
  | [], _ => none
  | (k, v) :: rest, key => if k = key then some v else lookupAssoc rest key

/-- Dict `d.setdefault(k, []).extend(vs)` for the weekly pools. -/
def extendAssoc : List (String × List JValue) → String → List JValue → List (String × List JValue)
  | [], key, vs => [(key, vs)]
  | (k, w) :: rest, key, vs =>
    if k = key then (k, w ++ vs) :: rest else (k, w) :: extendAssoc rest key vs

def lookupPool : List (String × List JValue) → String → Option (List JValue)
  | [], _ => none
  | (k, v) :: rest, key => if k = key then some v else lookupPool rest key

/-- Deduplicate keeping the first occurrence of each string. -/
def dedupStr : List String → List String
  | [] => []
  | s :: rest => s :: (dedupStr rest).filter (fun t => t ≠ s)

/-- A pandas DataFrame, reduced to what the dashboards observe: the ordered
column labels and the rows (each row an ordered record of cells). -/
structure DataFrame where
  columns : List String
  rows : List (List (String × JValue))

/-- `pd.DataFrame(records)`: columns are the record keys in order of first
appearance — in particular an empty record list yields an empty column set. -/
def mkDataFrame (records : List (List (String × JValue))) : DataFrame :=
  { columns := dedupStr (records.flatMap (fun r => r.map Prod.fst)),
    rows := records }

/-- `pd.concat(dfs, ignore_index=True)`: rows are concatenated and columns are
aligned by name (union, first-appearance order). -/
def concatDF (dfs : List DataFrame) : DataFrame :=
  { columns := dedupStr (dfs.flatMap DataFrame.columns),
    rows := dfs.flatMap DataFrame.rows }

/-- One JSON document string at the core boundary, represented by its parse
outcome: `.ok v` for well-formed JSON text, `.error ()` for malformed text. -/
abbrev Doc := Except Unit JValue

/-- `json.loads`: a malformed document raises `json.JSONDecodeError`. -/
def parseDoc : Doc → Py JValue
  | .ok v => .ok v
  | .error _ => .error .jsonDecodeError

/-- Split a character list at a separator character. -/
def chSplit (c : Char) : List Char → List (List Char)
  | [] => [[]]
  | a :: rest =>
    if a = c then [] :: chSplit c rest
    else match chSplit c rest with
      | [] => [[a]]
      | g :: gs => (a :: g) :: gs

/-- Python `s.split(sep)` for a one-character separator. -/
def strSplit (s : String) (c : Char) : List String :=
  (chSplit c s.data).map (fun l => String.mk l)

/-- Python `s.endswith(t)`. -/
def strEndsWith (s t : String) : Bool :=
  t.data.length ≤ s.data.length && s.data.drop (s.data.length - t.data.length) == t.data

/-- Python `sep.join(parts)` for the one-character separator `"_"`. -/
def joinUnder : List String → String
  | [] => ""
  | [s] => s
  | s :: rest => s ++ "_" ++ joinUnder rest

/-- Insertion sort on strings by code-point order, as Python `sorted` on `str`. -/
def insertStr (s : String) : List String → List String
  | [] => [s]
  | a :: rest => if s.data < a.data then s :: a :: rest else a :: insertStr s rest

def sortStr (l : List String) : List String := l.foldr insertStr []

def digitsValGo : List Char → ℕ → Option ℕ
  | [], acc => some acc
  | c :: rest, acc =>
    if c.isDigit then digitsValGo rest (acc * 10 + (c.toNat - 48)) else none

/-- Numeric value of a nonempty all-digit string. -/
def digitsVal : List Char → Option ℕ
  | [] => none
  | l => digitsValGo l 0

def isLeap (y : ℕ) : Bool := (y % 4 == 0 && y % 100 != 0) || y % 400 == 0

def monthDays (leap : Bool) (m : ℕ) : ℕ :=
  if m = 1 then 31 else if m = 2 then (if leap then 29 else 28)
  else if m = 3 then 31 else if m = 4 then 30 else if m = 5 then 31
  else if m = 6 then 30 else if m = 7 then 31 else if m = 8 then 31
  else if m = 9 then 30 else if m = 10 then 31 else if m = 11 then 30 else 31

/-- Days in the months strictly before month `m` (1-based). -/
def monthOffset (leap : Bool) : ℕ → ℕ
  | 0 => 0
  | 1 => 0
  | m + 1 => monthOffset leap m + monthDays leap m

/-- Rata-die ordinal of a proleptic-Gregorian date (`0001-01-01` is day 1). -/
def toDays (y m d : ℕ) : ℕ :=
  365 * (y - 1) + ((y - 1) / 4 - (y - 1) / 100) + (y - 1) / 400 +
    monthOffset (isLeap y) m + d

/-- Inverse of `toDays` (standard civil-from-days computation). -/
def fromDays (n : ℕ) : ℕ × ℕ × ℕ :=
  let z := n + 305
  let era := z / 146097
  let doe := z % 146097
  let yoe := (doe - doe / 1460 + doe / 36524 - doe / 146096) / 365
  let y0 := yoe + era * 400
  let doy := doe - (365 * yoe + yoe / 4 - yoe / 100)
  let mp := (5 * doy + 2) / 153
  let d := doy - (153 * mp + 2) / 5 + 1
  let m := if mp < 10 then mp + 3 else mp - 9
  (if m ≤ 2 then y0 + 1 else y0, m, d)

/-- Parse an ISO `YYYY-MM-DD` date string to its rata-die ordinal. -/
def parseYMD (s : String) : Option ℕ :=
  match strSplit s '-' with
  | [ys, ms, ds] =>
    match digitsVal ys.data, digitsVal ms.data, digitsVal ds.data with
    | some y, some m, some d =>
      if 1 ≤ y ∧ 1 ≤ m ∧ m ≤ 12 ∧ 1 ≤ d ∧ d ≤ monthDays (isLeap y) m then
        some (toDays y m d)
      else none
    | _, _, _ => none
  | _ => none

/-- Modelled from the boundary: `pd.to_datetime` on one collected date value.
The input schema gives dates as ISO `YYYY-MM-DD` strings; anything else is
modelled as the parse error `pd.to_datetime` raises by default. -/
def parseDate : JValue → Py ℕ
  | .str s =>
    match parseYMD s with
    | some n => .ok n
    | none => .error .valueError
  | _ => .error .valueError

def parseAllDates : List JValue → Py (List ℕ)
  | [] => .ok []
  | v :: vs => do
    let n ← parseDate v
    let ns ← parseAllDates vs
    .ok (n :: ns)

def pad2 (n : ℕ) : String := if n < 10 then "0" ++ toString n else toString n

def pad4 (n : ℕ) : String :=
  if n < 10 then "000" ++ toString n
  else if n < 100 then "00" ++ toString n
  else if n < 1000 then "0" ++ toString n
  else toString n

/-- `strftime("%Y-%m-%d")` on a rata-die ordinal. -/
def formatDate (n : ℕ) : String :=
  match fromDays n with
  | (y, m, d) => pad4 y ++ "-" ++ pad2 m ++ "-" ++ pad2 d

def insertUniq (n : ℕ) : List ℕ → List ℕ
  | [] => [n]
  | a :: rest =>
    if n < a then n :: a :: rest
    else if n = a then a :: rest
    else a :: insertUniq n rest

/-- `sorted(set(...))`: the strictly increasing list of distinct values. -/
def sortedUniq (l : List ℕ) : List ℕ := l.foldr insertUniq []

/-- Consecutive-day deltas of the sorted unique day list
(`gaps = [(days[i+1]-days[i]).days for i in range(len(days)-1)]`). -/
def gapsOf : List ℕ → List ℤ
  | [] => []
  | [_] => []
  | a :: b :: rest => ((b : ℤ) - (a : ℤ)) :: gapsOf (b :: rest)

/-- Python `max` over a list, `None` when the list is empty
(`longest_gap_days = max(gaps) if gaps else None`). -/
def pyMax : List ℤ → Option ℤ
  | [] => none
  | x :: xs => some (xs.foldl max x)

/-- The streak loop of `process_file` (lines 94-101): `streak`/`longest` start
at 1; a day exactly one after the previous extends the streak and updates the
maximum, any other delta resets the streak to 1. -/
def streakLoop (prev : ℕ) (streak longest : ℕ) : List ℕ → ℕ
  | [] => longest
  | d :: rest =>
    if d = prev + 1 then streakLoop d (streak + 1) (max longest (streak + 1)) rest
    else streakLoop d 1 longest rest

def longestStreakDays : List ℕ → ℕ
  | [] => 1
  | d :: rest => streakLoop d 1 1 rest

def longestGapDays (days : List ℕ) : Option ℤ := pyMax (gapsOf days)

/-- One output record: an ordered dict from column name to cell value. -/
abbrev Row := List (String × JValue)

def notNull : JValue → Bool
  | .null => false
  | _ => true

/-- Python `obj.get(field, default)`: `dict.get` with a default; raises
`AttributeError` when the receiver is not a dict. -/
def pyGetD (obj : JValue) (field : String) (dflt : JValue) : Py JValue :=
  match obj with
  | .obj fs => .ok ((lookupField fs field).getD dflt)
  | _ => .error .attributeError

/-- The coordinate-validity filter shared by both hull computations:
`[(lon, lat) for lon, lat in coords if lon is not None and lat is not None]`
(the explorer's `pd.notna` test agrees with the `is not None` test on the
JSON values in play). -/
def validCoords (cs : List (JValue × JValue)) : List (JValue × JValue) :=
  cs.filter (fun p => notNull p.1 && notNull p.2)

def meanQ (l : List ℚ) : ℚ := l.sum / l.length

/-- Python `int()` on a rational: truncation toward zero. -/
def pyTrunc (q : ℚ) : ℤ := if 0 ≤ q then ⌊q⌋ else -⌊-q⌋

/-- The `len(coords) >= 3` branch shared verbatim by both source files:
mean longitude/latitude, UTM zone `int((mean_lon + 180) / 6) + 1`, EPSG code
`32600 + zone` for `mean_lat >= 0` else `32700 + zone`, reprojection of every
point into that CRS, and the planar hull area divided by 1e6 (m² → km²).
`project` and `hullArea` stand for the external `pyproj` transformation and
the `shapely` convex-hull area. -/
def hullAreaKm2 (project : ℤ → ℚ × ℚ → ℚ × ℚ) (hullArea : List (ℚ × ℚ) → ℚ)
    (coords : List (JValue × JValue)) : Py ℚ := do
  let lons ← ratAll (coords.map Prod.fst)
  let lats ← ratAll (coords.map Prod.snd)
  let meanLon := meanQ lons
  let meanLat := meanQ lats
  let zone := pyTrunc ((meanLon + 180) / 6) + 1
  let code := (if 0 ≤ meanLat then 32600 else 32700) + zone
  .ok (hullArea ((lons.zip lats).map (project code)) / 1000000)

namespace JP

/-- `LH_json_processor.safe_extract`: `obj.get(field, None)` — note this
raises `AttributeError` when `obj` is not a dict. -/
def safe_extract (obj : JValue) (field : String) : Py JValue :=
  match obj with
  | .obj fs => .ok ((lookupField fs field).getD .null)
  | _ => .error .attributeError

/-- The coordinate comprehension of `LH_json_processor.calculate_convex_hull_area`:
`[(safe_extract(l, "longitude"), safe_extract(l, "latitude")) for l in landmarks]`. -/
def rawCoords : List JValue → Py (List (JValue × JValue))
  | [] => .ok []
  | l :: rest => do
    let lon ← safe_extract l "longitude"
    let lat ← safe_extract l "latitude"
    let cs ← rawCoords rest
    .ok ((lon, lat) :: cs)

/-- `LH_json_processor.calculate_convex_hull_area` (lines 16-30). -/
def calculate_convex_hull_area (project : ℤ → ℚ × ℚ → ℚ × ℚ)
    (hullArea : List (ℚ × ℚ) → ℚ) (landmarks : JValue) : Py (Option ℚ) := do
  let ls ← pyIter landmarks
  let cs ← rawCoords ls
  let coords := validCoords cs
  if 3 ≤ coords.length then do
    let a ← hullAreaKm2 project hullArea coords
    .ok (some a)
  else .ok none

/-- The four metric pools of `process_file`
(`trial_data` / `day_data`, keyed `pointing | distance | mapping | kendallTau`). -/
structure Pools where
  pointing : List JValue := []
  distance : List JValue := []
  mapping : List JValue := []
  kendallTau : List JValue := []

def Pools.append (a b : Pools) : Pools :=
  { pointing := a.pointing ++ b.pointing,
    distance := a.distance ++ b.distance,
    mapping := a.mapping ++ b.mapping,
    kendallTau := a.kendallTau ++ b.kendallTau }

def poolGet (p : Pools) (t : String) : List JValue :=
  if t = "pointing" then p.pointing
  else if t = "distance" then p.distance
  else if t = "kendallTau" then p.kendallTau
  else p.mapping

def labelOf (t : String) : String :=
  if t = "pointing" then "Pointing_Error"
  else if t = "distance" then "Distance_Accuracy"
  else if t = "kendallTau" then "Kendall_Tau"
  else "Mapping_R2"

def ordered4 : List String := ["pointing", "distance", "kendallTau", "mapping"]

def taskTypes3 : List String := ["pointing", "distance", "mapping"]

/-- What a single trial contributes to the pools in `process_file`
(lines 121-141): skipped unless its `taskSource` equals the source filter;
pointing uses `error` if present; distance uses the CLAMPED accuracy
`max(0, min(100, 50 + 50 * kendallTau))` and records the raw tau; mapping
uses `safe_extract(trial, "r2") or safe_extract(trial, "rSquared")` if the
result is not `None`. -/
def trialContrib (sf tt : String) (trial : JValue) : Py Pools := do
  let ts ← safe_extract trial "taskSource"
  if ¬ jeqStr ts sf then .ok {}
  else if tt = "pointing" then do
    let e ← safe_extract trial "error"
    if notNull e then .ok { pointing := [e] } else .ok {}
  else if tt = "distance" then do
    let tau ← safe_extract trial "kendallTau"
    if notNull tau then do
      let t ← pyToRat tau
      .ok { distance := [.num (max 0 (min 100 (50 + 50 * t)))], kendallTau := [tau] }
    else .ok {}
  else if tt = "mapping" then do
    let r2v ← safe_extract trial "r2"
    let m ← if truthy r2v then .ok r2v else safe_extract trial "rSquared"
    if notNull m then .ok { mapping := [m] } else .ok {}
  else .ok {}

def trialsLoop (sf tt : String) : List JValue → Pools → Py Pools
  | [], acc => .ok acc
  | trial :: rest, acc => do
    let c ← trialContrib sf tt trial
    trialsLoop sf tt rest (acc.append c)

def taskLoop (sf : String) (se : JValue) : List String → Pools → Py Pools
  | [], acc => .ok acc
  | tt :: rest, acc => do
    let trials ← safe_extract se tt
    let acc2 ← if truthy trials then do
        let ts ← pyIter trials
        trialsLoop sf tt ts acc
      else .ok acc
    taskLoop sf se rest acc2

def sourceLoop (sf : String) : List JValue → Pools → Py Pools
  | [], acc => .ok acc
  | se :: rest, acc => do
    let acc2 ← if isObj se then taskLoop sf se taskTypes3 acc else .ok acc
    sourceLoop sf rest acc2

/-- One daily entry's `day_data`: iterate `resultsBySource`, skipping
non-dict source entries, over the three task-type keys. -/
def dayData (sf : String) (rbs : JValue) : Py Pools := do
  let ses ← pyIter rbs
  sourceLoop sf ses {}

/-- The per-day metric emission (line 143-151): for each task with a nonempty
day pool, `daily_metrics[f"Day{day_idx}_{source_filter}_{label}"] = np.mean(...)`. -/
def dailyAdd (sf : String) (idx : ℕ) (dd : Pools) : List String → Row → Py Row
  | [], dm => .ok dm
  | t :: rest, dm => do
    let dm2 ← if (poolGet dd t).isEmpty then .ok dm
      else do
        let m ← npMean (poolGet dd t)
        .ok (updateAssoc dm ("Day" ++ toString idx ++ "_" ++ sf ++ "_" ++ labelOf t) (.num m))
    dailyAdd sf idx dd rest dm2

/-- The weekly pooling (lines 153-156): per-trial values are extended into
`weekly_metrics[f"Week{current_week}_{source_filter}_{task}"]`. -/
def weeklyAdd (sf : String) (week : ℕ) (dd : Pools) :
    List String → List (String × List JValue) → List (String × List JValue)
  | [], wm => wm
  | t :: rest, wm =>
    let wm2 := if (poolGet dd t).isEmpty then wm
      else extendAssoc wm ("Week" ++ toString week ++ "_" ++ sf ++ "_" ++ t) (poolGet dd t)
    weeklyAdd sf week dd rest wm2

/-- The daily-entry loop of `process_file` (lines 109-156), with the 1-based
entry ordinal `idx` and `current_week = (day_idx - 1) // 7 + 1`. -/
def dailyLoop (sf : String) : List JValue → ℕ → Pools → Row →
    List (String × List JValue) → Py (Pools × Row × List (String × List JValue))
  | [], _, td, dm, wm => .ok (td, dm, wm)
  | entry :: rest, idx, td, dm, wm => do
    let rbs ← safe_extract entry "resultsBySource"
    let dd ← if truthy rbs then dayData sf rbs else .ok {}
    let dm2 ← dailyAdd sf idx dd ordered4 dm
    let wm2 := weeklyAdd sf ((idx - 1) / 7 + 1) dd ordered4 wm
    dailyLoop sf rest (idx + 1) (td.append dd) dm2 wm2

def dailyAndWeekly (sf : String) (entries : List JValue) :
    Py (Pools × Row × List (String × List JValue)) :=
  dailyLoop sf entries 1 {} [] []

/-- Weekly averages (lines 158-170): for each task, keys of `weekly_metrics`
ending in the task name are sorted lexicographically; each pool's mean is
emitted under `{week_prefix}_{label}` where the prefix is the first two
`_`-separated components of the pool key. -/
def weekAvgAdd (t : String) (wm : List (String × List JValue)) : List String → Row → Py Row
  | [], acc => .ok acc
  | wk :: rest, acc => do
    let vals := (lookupPool wm wk).getD []
    let m ← npMean vals
    let pre := joinUnder ((strSplit wk '_').take 2)
    weekAvgAdd t wm rest (updateAssoc acc (pre ++ "_" ++ labelOf t) (.num m))

def weekAvgTasks (wm : List (String × List JValue)) : List String → Row → Py Row
  | [], acc => .ok acc
  | t :: rest, acc => do
    let acc2 ← weekAvgAdd t wm (sortStr ((wm.map Prod.fst).filter (fun k => strEndsWith k t))) acc
    weekAvgTasks wm rest acc2

def weekAvg (wm : List (String × List JValue)) : Py Row := weekAvgTasks wm ordered4 []

/-- The overall metrics (lines 190-199): mean of each full pool, or `None`
when the pool is empty. -/
def overallAdd (sf : String) (td : Pools) : List String → Row → Py Row
  | [], acc => .ok acc
  | t :: rest, acc => do
    let v ← if (poolGet td t).isEmpty then .ok JValue.null
      else do
        let m ← npMean (poolGet td t)
        .ok (JValue.num m)
    overallAdd sf td rest (updateAssoc acc ("Overall_" ++ sf ++ "_" ++ labelOf t) v)

/-- The date comprehension of line 83:
`[safe_extract(day, "date") for day in daily_results if ... is not None]`. -/
def usageDates : List JValue → Py (List JValue)
  | [] => .ok []
  | day :: rest => do
    let d ← safe_extract day "date"
    let ds ← usageDates rest
    .ok (if notNull d then d :: ds else ds)

/-- `result.update(...)`: apply dict updates in insertion order. -/
def applyUpdates (r : Row) (kvs : Row) : Row :=
  kvs.foldl (fun acc kv => updateAssoc acc kv.1 kv.2) r

/-- The body of `LH_json_processor.process_file` after `json.loads`
(lines 71-204), producing the single wide summary record. -/
def processData (project : ℤ → ℚ × ℚ → ℚ × ℚ) (hullArea : List (ℚ × ℚ) → ℚ)
    (data : JValue) (sf : String) : Py Row := do
  let pInfo ← pyGetD data "participantInfo" (.obj [])
  let userID ← safe_extract pInfo "userID"
  let gender ← safe_extract pInfo "gender"
  let age ← safe_extract pInfo "age"
  let sessionID ← safe_extract data "sessionID"
  let landmarksV ← pyGetD data "landmarks" (.arr [])
  let totalLandmarks ← pyLen landmarksV
  let deleted ← pyGetD data "deletedLandmarks" (.num 0)
  let hull ← calculate_convex_hull_area project hullArea landmarksV
  let drV ← pyGetD data "dailyResults" (.arr [])
  let entries ← pyIter drV
  let dates ← usageDates entries
  let parsed ← parseAllDates dates
  let days := sortedUniq parsed
  let firstUse := match days with
    | [] => JValue.null
    | d :: _ => .str (formatDate d)
  let lastUse := match days.getLast? with
    | none => JValue.null
    | some d => .str (formatDate d)
  let durationV := match days, days.getLast? with
    | d :: _, some e => JValue.num ((e : ℚ) - (d : ℚ))
    | _, _ => JValue.null
  let engagementV := if 0 < totalLandmarks
    then JValue.num ((days.length : ℚ) / (totalLandmarks : ℚ)) else JValue.null
  let gapV := match longestGapDays days with
    | some g => JValue.num (g : ℚ)
    | none => JValue.null
  let (td, dm, wm) ← dailyAndWeekly sf entries
  let wa ← weekAvg wm
  let baseRow : Row := [
    ("userID", userID), ("gender", gender), ("age", age), ("sessionID", sessionID),
    ("total_landmarks", .num (totalLandmarks : ℚ)),
    ("deleted_landmarks", deleted),
    ("convex_hull_area", match hull with | some a => .num a | none => .null),
    ("total_days_used", .num (days.length : ℚ)),
    ("first_use_date", firstUse), ("last_use_date", lastUse),
    ("total_duration_days", durationV),
    ("engagement_ratio", engagementV),
    ("longest_gap_days", gapV),
    ("longest_streak_days", .num (longestStreakDays days : ℚ))]
  let withOverall ← overallAdd sf td ordered4 baseRow
  .ok (applyUpdates (applyUpdates withOverall dm) wa)

/-- `LH_json_processor.process_file`. -/
def process_file (project : ℤ → ℚ × ℚ → ℚ × ℚ) (hullArea : List (ℚ × ℚ) → ℚ)
    (content : Doc) (sf : String) : Py DataFrame := do
  let data ← parseDoc content
  let row ← processData project hullArea data sf
  .ok (mkDataFrame [row])

/-- The per-document loop of `process_uploaded_files` (lines 58-64):
`json.JSONDecodeError` is caught per document and the document skipped
(a warning is surfaced in the UI); any other exception propagates. -/
def filesLoop (project : ℤ → ℚ × ℚ → ℚ × ℚ) (hullArea : List (ℚ × ℚ) → ℚ)
    (sf : String) : List Doc → List DataFrame → Py (List DataFrame)
  | [], acc => .ok acc
  | c :: rest, acc =>
    match process_file project hullArea c sf with
    | .ok df => filesLoop project hullArea sf rest (acc ++ [df])
    | .error .jsonDecodeError => filesLoop project hullArea sf rest acc
    | .error e => .error e

/-- `LH_json_processor.process_uploaded_files` (lines 55-67). -/
def process_uploaded_files (project : ℤ → ℚ × ℚ → ℚ × ℚ)
    (hullArea : List (ℚ × ℚ) → ℚ) (docs : List Doc) (sf : String) : Py DataFrame := do
  let results ← filesLoop project hullArea sf docs []
  if results.isEmpty then .ok (mkDataFrame []) else .ok (concatDF results)

end JP

namespace DE

/-- `LH_data_explorer.safe_extract`: `obj.get(field, None) if isinstance(obj, dict)
else None` — total, never raises. -/
def safe_extract (obj : JValue) (field : String) : JValue :=
  match obj with
  | .obj fs => (lookupField fs field).getD .null
  | _ => .null

/-- One row of the explorer's landmark table (`extract_landmark_data` records). -/
structure LRow where
  userID : JValue
  latitude : JValue
  longitude : JValue
  timestamp : JValue

/-- `LH_data_explorer.extract_landmark_data` (lines 42-54), as the record list
underlying the returned DataFrame. -/
def extract_landmark_data (content : Doc) : Py (List LRow) := do
  let data ← parseDoc content
  let userID := safe_extract (safe_extract data "participantInfo") "userID"
  let lmsV ← pyGetD data "landmarks" (.arr [])
  let lms ← pyIter lmsV
  .ok (lms.map (fun lm =>
    ⟨userID, safe_extract lm "latitude", safe_extract lm "longitude",
      safe_extract lm "timestamp"⟩))

/-- `Series.unique()`: first-occurrence order, duplicates removed. -/
def uniqueJs : List JValue → List JValue
  | [] => []
  | v :: rest => v :: (uniqueJs rest).filter (fun w => !jbeq w v)

/-- One row of the explorer's per-user hull table; the `np.nan` emitted for
fewer than 3 valid points is the table's null value. -/
structure HullRow where
  userID : JValue
  area : Option ℚ
  numLandmarks : ℕ

/-- The per-user body of `LH_data_explorer.calculate_convex_hull_area`
(lines 58-79): select the user's rows, keep coordinate pairs with both
components present, and compute the hull area only when at least 3 remain. -/
def userHullRow (project : ℤ → ℚ × ℚ → ℚ × ℚ) (hullArea : List (ℚ × ℚ) → ℚ)
    (rows : List LRow) (u : JValue) : Py HullRow := do
  let coords := validCoords
    ((rows.filter (fun r => jbeq r.userID u)).map (fun r => (r.longitude, r.latitude)))
  if 3 ≤ coords.length then do
    let a ← hullAreaKm2 project hullArea coords
    .ok ⟨u, some a, coords.length⟩
  else .ok ⟨u, none, coords.length⟩

def usersLoop (project : ℤ → ℚ × ℚ → ℚ × ℚ) (hullArea : List (ℚ × ℚ) → ℚ)
    (rows : List LRow) : List JValue → Py (List HullRow)
  | [] => .ok []
  | u :: us => do
    let r ← userHullRow project hullArea rows u
    let rs ← usersLoop project hullArea rows us
    .ok (r :: rs)

/-- `LH_data_explorer.calculate_convex_hull_area` (lines 56-80). -/
def calculate_convex_hull_area (project : ℤ → ℚ × ℚ → ℚ × ℚ)
    (hullArea : List (ℚ × ℚ) → ℚ) (rows : List LRow) : Py (List HullRow) :=
  usersLoop project hullArea rows (uniqueJs (rows.map LRow.userID))

/-- The row-level distance accuracy of `extract_trial_data` (lines 104-105):
`accuracy = 50 + 50 * tau if tau is not None else None` — UNCLAMPED. -/
def accuracyOf (tau : JValue) : Py JValue :=
  if notNull tau then do
    let t ← pyToRat tau
    .ok (.num (50 + 50 * t))
  else .ok .null

/-- One record of `extract_trial_data` (lines 104-116). -/
def trialRecord (userID sessionID : JValue) (tt : String) (trial : JValue) : Py Row := do
  let tau := safe_extract trial "kendallTau"
  let accuracy ← accuracyOf tau
  .ok [("userID", userID), ("sessionID", sessionID),
    ("taskSource", safe_extract trial "taskSource"),
    ("taskType", .str tt),
    ("error", safe_extract trial "error"),
    ("kendallTau", tau),
    ("distance_accuracy", accuracy),
    ("r2", pyOr (safe_extract trial "r2") (safe_extract trial "rSquared")),
    ("timestamp", safe_extract trial "timestamp")]

/-- The source-filter guard (line 102): skip a trial when a filter is given
and the trial's `taskSource` differs from it. -/
def skipBySource (sf : Option String) (trial : JValue) : Bool :=
  match sf with
  | none => false
  | some s => !(jeqStr (safe_extract trial "taskSource") s)

/-- The task-filter guard (line 97). -/
def skipByTask (tf : Option String) (tt : String) : Bool :=
  match tf with
  | none => false
  | some t => tt ≠ t

def trialsLoop (userID sessionID : JValue) (tt : String) (sf : Option String) :
    List JValue → Py (List Row)
  | [] => .ok []
  | trial :: rest =>
    if skipBySource sf trial then trialsLoop userID sessionID tt sf rest
    else do
      let r ← trialRecord userID sessionID tt trial
      let rs ← trialsLoop userID sessionID tt sf rest
      .ok (r :: rs)

def taskLoop (userID sessionID : JValue) (se : JValue) (sf tf : Option String) :
    List String → Py (List Row)
  | [] => .ok []
  | tt :: rest => do
    let here ← if skipByTask tf tt then .ok []
      else
        let trials := safe_extract se tt
        if truthy trials then do
          let ts ← pyIter trials
          trialsLoop userID sessionID tt sf ts
        else .ok []
    let more ← taskLoop userID sessionID se sf tf rest
    .ok (here ++ more)

def sourceLoop (userID sessionID : JValue) (sf tf : Option String) :
    List JValue → Py (List Row)
  | [] => .ok []
  | se :: rest => do
    let here ← if isObj se then taskLoop userID sessionID se sf tf JP.taskTypes3 else .ok []
    let more ← sourceLoop userID sessionID sf tf rest
    .ok (here ++ more)

def entriesLoop (userID sessionID : JValue) (sf tf : Option String) :
    List JValue → Py (List Row)
  | [] => .ok []
  | entry :: rest => do
    let rbs := safe_extract entry "resultsBySource"
    let here ← if truthy rbs then do
        let ses ← pyIter rbs
        sourceLoop userID sessionID sf tf ses
      else .ok []
    let more ← entriesLoop userID sessionID sf tf rest
    .ok (here ++ more)

/-- The record list built by `LH_data_explorer.extract_trial_data` (lines 83-117). -/
def trialRecordsOf (content : Doc) (sf tf : Option String) : Py (List Row) := do
  let data ← parseDoc content
  let userID := safe_extract (safe_extract data "participantInfo") "userID"
  let sessionID := safe_extract data "sessionID"
  let drV ← pyGetD data "dailyResults" (.arr [])
  let entries ← pyIter drV
  entriesLoop userID sessionID sf tf entries

/-- `LH_data_explorer.extract_trial_data` (lines 83-118):
`pd.DataFrame(records)`. -/
def extract_trial_data (content : Doc) (sf tf : Option String) : Py DataFrame := do
  let rs ← trialRecordsOf content sf tf
  .ok (mkDataFrame rs)

def trialsBatchLoop (sf tf : Option String) : List Doc → Py (List DataFrame)
  | [] => .ok []
  | c :: rest => do
    let df ← extract_trial_data c sf tf
    let dfs ← trialsBatchLoop sf tf rest
    .ok (df :: dfs)

/-- The explorer's trial-table batch (lines 176-179):
`pd.concat([extract_trial_data(c, ...) for c in json_files], ignore_index=True)`.
There is no exception handler here: any per-document error aborts the batch
(and `pd.concat` of an empty sequence raises `ValueError`). -/
def allTrialsBatch (docs : List Doc) (sf tf : Option String) : Py DataFrame := do
  let dfs ← trialsBatchLoop sf tf docs
  if dfs.isEmpty then .error .valueError else .ok (concatDF dfs)

/-- One row of the explorer's Participant & Session Overview (lines 143-155). -/
def sessionOverviewRow (data : JValue) : Py Row := do
  let pInfo := safe_extract data "participantInfo"
  let userID := safe_extract pInfo "userID"
  let gender := safe_extract pInfo "gender"
  let age := safe_extract pInfo "age"
  let sessionID := safe_extract data "sessionID"
  let lmsV ← pyGetD data "landmarks" (.arr [])
  let total ← pyLen lmsV
  let deleted ← pyGetD data "deletedLandmarks" (.num 0)
  .ok [("userID", userID), ("gender", gender), ("age", age),
    ("sessionID", sessionID), ("total_landmarks", .num (total : ℚ)),
    ("deleted_landmarks", deleted)]

def overviewLoop : List Doc → Py (List Row)
  | [] => .ok []
  | c :: rest => do
    let data ← parseDoc c
    let r ← sessionOverviewRow data
    let rs ← overviewLoop rest
    .ok (r :: rs)

/-- The explorer's overview batch loop (lines 141-156): `json.loads` per
document with no handler, then `pd.DataFrame(session_data)`. -/
def sessionOverviewBatch (docs : List Doc) : Py DataFrame := do
  let rows ← overviewLoop docs
  .ok (mkDataFrame rows)

end DE

/-- Identity reprojection, used to instantiate the external `project`
parameter in concrete tests (theorems hold for every `project`). -/
def projFix : ℤ → ℚ × ℚ → ℚ × ℚ := fun _ p => p

/-- Constant-area stub instantiating the external planar hull-area parameter. -/
def hullFix : List (ℚ × ℚ) → ℚ := fun _ => 18

/-- A distance trial with `kendallTau = 1.2` and `taskSource = "assessment"`. -/
def trial12 : JValue :=
  .obj [("taskSource", .str "assessment"), ("kendallTau", .num (6/5))]

/-- A document whose only trial is `trial12`, in its first daily entry. -/
def doc12 : JValue := .obj [("dailyResults", .arr [
  .obj [("resultsBySource", .arr [.obj [("distance", .arr [trial12])]])]])]

/-- A mapping trial whose `r2` is present but equal to `0.0`, with `rSquared = 0.75`. -/
def trialR2RS : JValue :=
  .obj [("taskSource", .str "manual"), ("r2", .num 0), ("rSquared", .num (3/4))]

def docR2RS : JValue := .obj [("dailyResults", .arr [
  .obj [("resultsBySource", .arr [.obj [("mapping", .arr [trialR2RS])]])]])]

/-- A mapping trial with `r2 = 0.0` present and no `rSquared` at all. -/
def docR20 : JValue := .obj [("dailyResults", .arr [
  .obj [("resultsBySource", .arr [.obj [("mapping", .arr [
    .obj [("taskSource", .str "assessment"), ("r2", .num 0)]])]])]])]

/-- A document with one pointing trial (`error = 2.5`, source `assessment`). -/
def docPointing : JValue := .obj [("dailyResults", .arr [
  .obj [("resultsBySource", .arr [.obj [("pointing", .arr [
    .obj [("taskSource", .str "assessment"), ("error", .num (5/2))]])]])]])]

/-- A daily entry with the given date and optionally one assessment pointing
trial with the given error. -/
def mkDayEntry (dt : String) (err : Option ℚ) : JValue :=
  .obj ([("date", .str dt)] ++ (match err with
    | some e => [("resultsBySource", .arr [.obj [("pointing", .arr [
        .obj [("taskSource", .str "assessment"), ("error", .num e)]])]])]
    | none => []))

/-- Eight daily entries all dated `2020-05-05`; only the 8th has a trial. -/
def doc8 : JValue := .obj [("dailyResults", .arr [
  mkDayEntry "2020-05-05" none, mkDayEntry "2020-05-05" none, mkDayEntry "2020-05-05" none,
  mkDayEntry "2020-05-05" none, mkDayEntry "2020-05-05" none, mkDayEntry "2020-05-05" none,
  mkDayEntry "2020-05-05" none, mkDayEntry "2020-05-05" (some (5/2))])]

/-- Entries dated 2024-01-01, -02, -03 and -10 (no trials). -/
def docDates : JValue := .obj [("dailyResults", .arr [
  mkDayEntry "2024-01-01" none, mkDayEntry "2024-01-02" none,
  mkDayEntry "2024-01-03" none, mkDayEntry "2024-01-10" none])]

/-- Observation helper: one named column of every per-trial record produced by
the explorer's `extract_trial_data`. -/
def trialFieldsOf (content : Doc) (sf tf : Option String) (key : String) :
    Py (List (Option JValue)) := do
  let rs ← DE.trialRecordsOf content sf tf
  .ok (rs.map (fun r => lookupAssoc r key))

/-- Observation helper: one named column of every row of a `process_file` result. -/
def summaryFieldOf (project : ℤ → ℚ × ℚ → ℚ × ℚ) (hullArea : List (ℚ × ℚ) → ℚ)
    (content : Doc) (sf key : String) : Py (List (Option JValue)) := do
  let df ← JP.process_file project hullArea content sf
  .ok (df.rows.map (fun r => lookupAssoc r key))

theorem pyBind_ok_iff {α β : Type} {x : Py α} {f : α → Py β} {b : β} :
    (x >>= f) = .ok b ↔ ∃ a, x = .ok a ∧ f a = .ok b := by
  cases x <;> simp [Bind.bind, Except.bind]

/-- C1: distance-accuracy clamping is asymmetric.  In the explorer's per-trial
table the accuracy of a trial with numeric `kendallTau` is the unclamped
`50 + 50 * tau` (so `tau = 1.2` yields `110`), and it is null when
`kendallTau` is absent; in `process_file` every distance contribution to the
per-day, per-week and overall pools is the clamped
`max(0, min(100, 50 + 50 * tau))`, as the `doc12` aggregates (all `100`) show. -/
theorem c1_distance_accuracy_clamping_asymmetry :
    (∀ t : ℚ, DE.accuracyOf (.num t) = .ok (.num (50 + 50 * t)))
    ∧ DE.accuracyOf .null = .ok .null
    ∧ (∀ userID sessionID tt trial r,
        DE.trialRecord userID sessionID tt trial = .ok r →
        ∃ v, DE.accuracyOf (DE.safe_extract trial "kendallTau") = .ok v ∧
          lookupAssoc r "distance_accuracy" = some v)
    ∧ trialFieldsOf (.ok doc12) none none "distance_accuracy" = .ok [some (.num 110)]
    ∧ (∀ sf trial t, JP.safe_extract trial "taskSource" = .ok (.str sf) →
        JP.safe_extract trial "kendallTau" = .ok (.num t) →
        JP.trialContrib sf "distance" trial =
          .ok { pointing := [], distance := [.num (max 0 (min 100 (50 + 50 * t)))],
                mapping := [], kendallTau := [.num t] })
    ∧ (∀ project hullArea,
        summaryFieldOf project hullArea (.ok doc12) "assessment"
          "Day1_assessment_Distance_Accuracy" = .ok [some (.num 100)]
        ∧ summaryFieldOf project hullArea (.ok doc12) "assessment"
          "Week1_assessment_Distance_Accuracy" = .ok [some (.num 100)]
        ∧ summaryFieldOf project hullArea (.ok doc12) "assessment"
          "Overall_assessment_Distance_Accuracy" = .ok [some (.num 100)]) := by
  refine ⟨?_, rfl, ?_, ?_, ?_, ?_⟩
  · intro t
    simp [DE.accuracyOf, notNull, pyToRat, bind, Except.bind]
  · intro userID sessionID tt trial r h
    unfold DE.trialRecord at h
    rcases pyBind_ok_iff.mp h with ⟨v, hv, hr⟩
    refine ⟨v, hv, ?_⟩
    cases hr
    simp +decide [lookupAssoc]
  · simp +decide [trialFieldsOf, DE.trialRecordsOf, parseDoc, DE.safe_extract, lookupField,
      pyGetD, pyIter, DE.entriesLoop, DE.sourceLoop, DE.taskLoop, DE.trialsLoop,
      DE.skipBySource, DE.skipByTask, DE.trialRecord, DE.accuracyOf, pyOr, truthy, notNull,
      pyToRat, isObj, jeqStr, JP.taskTypes3, doc12, trial12, lookupAssoc, bind, Except.bind]
    norm_num
  · intro sf trial t h1 h2
    simp only [JP.trialContrib, h1, h2, bind, Except.bind]
    simp +decide [jeqStr, notNull, pyToRat]
  · intro project hullArea
    refine ⟨?_, ?_, ?_⟩ <;>
    · simp +decide [summaryFieldOf, JP.process_file, parseDoc, JP.processData, pyGetD,
        JP.safe_extract, lookupField, pyLen, JP.calculate_convex_hull_area, JP.rawCoords,
        validCoords, pyIter, JP.usageDates, parseAllDates, sortedUniq, insertUniq,
        JP.dailyAndWeekly, JP.dailyLoop, JP.dayData, JP.sourceLoop, JP.taskLoop,
        JP.trialsLoop, JP.trialContrib, notNull, truthy, isObj, jeqStr, pyToRat,
        JP.dailyAdd, JP.weeklyAdd, JP.ordered4, JP.taskTypes3, JP.poolGet, JP.labelOf,
        JP.Pools.append, npMean, ratAll, extendAssoc, lookupPool, JP.weekAvg,
        JP.weekAvgTasks, JP.weekAvgAdd, sortStr, insertStr, strEndsWith, strSplit, chSplit,
        joinUnder, JP.overallAdd, JP.applyUpdates, updateAssoc, lookupAssoc, longestGapDays,
        longestStreakDays, streakLoop, gapsOf, pyMax, mkDataFrame, dedupStr, doc12, trial12,
        bind, Except.bind]
      norm_num

/-- The C1 theorem applied at `trial12` (`kendallTau = 1.2`): the explorer
record carries the unclamped `110`, the summarizer contribution the clamped `100`. -/
theorem c1_distance_accuracy_clamping_asymmetry_witness :
    DE.accuracyOf (.num (6/5)) = .ok (.num (50 + 50 * (6/5)))
    ∧ JP.trialContrib "assessment" "distance" trial12 =
      .ok { pointing := [], distance := [.num (max 0 (min 100 (50 + 50 * (6/5))))],
            mapping := [], kendallTau := [.num (6/5)] }
    ∧ summaryFieldOf projFix hullFix (.ok doc12) "assessment"
        "Overall_assessment_Distance_Accuracy" = .ok [some (.num 100)] := by
  refine ⟨c1_distance_accuracy_clamping_asymmetry.1 (6/5), ?_, ?_⟩
  · exact c1_distance_accuracy_clamping_asymmetry.2.2.2.2.1 "assessment" trial12 (6/5)
      (by simp +decide [JP.safe_extract, lookupField, trial12])
      (by simp +decide [JP.safe_extract, lookupField, trial12])
  · exact (c1_distance_accuracy_clamping_asymmetry.2.2.2.2.2 projFix hullFix).2.2

/-- C2 counterexample: the processor's `safe_extract` is `obj.get(field, None)`
with no `isinstance` guard, so on a non-dict container it raises
`AttributeError` instead of yielding null — and this is reachable from a core
call site: a document whose `participantInfo` is a string makes `process_file`
raise. -/
theorem c2_null_safety_counterexample :
    JP.safe_extract (.str "alice") "userID" = .error .attributeError
    ∧ JP.process_file projFix hullFix (.ok (.obj [("participantInfo", .str "alice")]))
        "assessment" = .error .attributeError := by
  constructor
  · rfl
  · simp +decide [JP.process_file, parseDoc, JP.processData, pyGetD, JP.safe_extract,
      lookupField, bind, Except.bind]

/-- C2 amended: field access through the explorer's `safe_extract` is null-safe
for every container (missing field or non-dict container yields null), while the
processor's `safe_extract` is null-safe only on dict containers and raises
`AttributeError` on any other container. -/
theorem c2_null_safety_amended :
    (∀ fs field, DE.safe_extract (.obj fs) field = (lookupField fs field).getD .null)
    ∧ (∀ v field, isObj v = false → DE.safe_extract v field = .null)
    ∧ (∀ fs field, JP.safe_extract (.obj fs) field = .ok ((lookupField fs field).getD .null))
    ∧ (∀ v field, isObj v = false → JP.safe_extract v field = .error .attributeError) := by
  refine ⟨fun fs field => rfl, ?_, fun fs field => rfl, ?_⟩
  · intro v field h
    cases v <;> simp [DE.safe_extract] <;> simp [isObj] at h
  · intro v field h
    cases v <;> simp [JP.safe_extract] <;> simp [isObj] at h

/-- The C2 amended theorem applied to a string container. -/
theorem c2_null_safety_amended_witness :
    DE.safe_extract (.str "alice") "userID" = .null
    ∧ JP.safe_extract (.str "alice") "userID" = .error .attributeError :=
  ⟨c2_null_safety_amended.2.1 (.str "alice") "userID" rfl,
   c2_null_safety_amended.2.2.2 (.str "alice") "userID" rfl⟩

/-- C3 counterexample: a mapping trial with `r2 = 0.0` PRESENT.  In the
per-trial table the `r2` column is `0.75` — the `rSquared` fallback fired even
though `r2` was present (Python `or` tests truthiness, and `0.0` is falsy) —
and in `process_file`, with `rSquared` absent, the same `r2 = 0.0` trial
contributes nothing: the overall mapping mean is null rather than `0.0`. -/
theorem c3_mapping_fallback_counterexample :
    trialFieldsOf (.ok docR2RS) none none "r2" = .ok [some (.num (3/4))]
    ∧ summaryFieldOf projFix hullFix (.ok docR20) "assessment"
        "Overall_assessment_Mapping_R2" = .ok [some JValue.null] := by
  constructor
  · simp +decide [trialFieldsOf, DE.trialRecordsOf, parseDoc, DE.safe_extract, lookupField,
      pyGetD, pyIter, DE.entriesLoop, DE.sourceLoop, DE.taskLoop, DE.trialsLoop,
      DE.skipBySource, DE.skipByTask, DE.trialRecord, DE.accuracyOf, pyOr, truthy, notNull,
      pyToRat, isObj, jeqStr, JP.taskTypes3, docR2RS, trialR2RS, lookupAssoc, bind,
      Except.bind]
  · simp +decide [summaryFieldOf, JP.process_file, parseDoc, JP.processData, pyGetD,
      JP.safe_extract, lookupField, pyLen, JP.calculate_convex_hull_area, JP.rawCoords,
      validCoords, pyIter, JP.usageDates, parseAllDates, sortedUniq, insertUniq,
      JP.dailyAndWeekly, JP.dailyLoop, JP.dayData, JP.sourceLoop, JP.taskLoop,
      JP.trialsLoop, JP.trialContrib, notNull, truthy, isObj, jeqStr, pyToRat,
      JP.dailyAdd, JP.weeklyAdd, JP.ordered4, JP.taskTypes3, JP.poolGet, JP.labelOf,
      JP.Pools.append, npMean, ratAll, extendAssoc, lookupPool, JP.weekAvg,
      JP.weekAvgTasks, JP.weekAvgAdd, sortStr, insertStr, strEndsWith, strSplit, chSplit,
      joinUnder, JP.overallAdd, JP.applyUpdates, updateAssoc, lookupAssoc, longestGapDays,
      longestStreakDays, streakLoop, gapsOf, pyMax, mkDataFrame, dedupStr, docR20,
      bind, Except.bind]

/-- C3 amended: the mapping metric is `r2 or rSquared` under Python truthiness
(`pyOr`): `rSquared` is used whenever `r2` is falsy — absent, null, or `0.0` —
not only when it is absent; a trial whose resulting metric is null (e.g.
`r2 = 0.0` with `rSquared` absent) is excluded from all pools, and trials
missing `error` (pointing) or `kendallTau` (distance) contribute nothing —
absence is never treated as zero. -/
theorem c3_mapping_metric_amended :
    (∀ sf trial r2v rsv, JP.safe_extract trial "taskSource" = .ok (.str sf) →
        JP.safe_extract trial "r2" = .ok r2v →
        JP.safe_extract trial "rSquared" = .ok rsv →
        JP.trialContrib sf "mapping" trial =
          .ok (if notNull (pyOr r2v rsv) then
            { pointing := [], distance := [], mapping := [pyOr r2v rsv], kendallTau := [] }
          else { pointing := [], distance := [], mapping := [], kendallTau := [] }))
    ∧ (∀ sf trial, JP.safe_extract trial "taskSource" = .ok (.str sf) →
        JP.safe_extract trial "error" = .ok .null →
        JP.trialContrib sf "pointing" trial = .ok {})
    ∧ (∀ sf trial, JP.safe_extract trial "taskSource" = .ok (.str sf) →
        JP.safe_extract trial "kendallTau" = .ok .null →
        JP.trialContrib sf "distance" trial = .ok {})
    ∧ (∀ userID sessionID tt trial r,
        DE.trialRecord userID sessionID tt trial = .ok r →
        lookupAssoc r "r2" =
          some (pyOr (DE.safe_extract trial "r2") (DE.safe_extract trial "rSquared")))
    ∧ JP.trialContrib "assessment" "mapping"
        (.obj [("taskSource", .str "assessment"), ("r2", .num 0), ("rSquared", .num (3/4))])
        = .ok { pointing := [], distance := [], mapping := [.num (3/4)], kendallTau := [] }
    ∧ summaryFieldOf projFix hullFix (.ok docR20) "assessment"
        "Overall_assessment_Mapping_R2" = .ok [some JValue.null] := by
  refine ⟨?_, ?_, ?_, ?_, ?_, ?_⟩
  · intro sf trial r2v rsv hts h1 h2
    simp only [JP.trialContrib, hts, h1, bind, Except.bind]
    simp +decide [jeqStr]
    by_cases htr : truthy r2v
    · simp [htr, pyOr]
      split <;> simp
    · simp [htr, pyOr, h2, bind, Except.bind]
      split <;> simp
  · intro sf trial hts h1
    simp only [JP.trialContrib, hts, h1, bind, Except.bind]
    simp +decide [jeqStr, notNull]
  · intro sf trial hts h1
    simp only [JP.trialContrib, hts, h1, bind, Except.bind]
    simp +decide [jeqStr, notNull]
  · intro userID sessionID tt trial r h
    unfold DE.trialRecord at h
    rcases pyBind_ok_iff.mp h with ⟨v, hv, hr⟩
    cases hr
    simp +decide [lookupAssoc]
  · simp +decide [JP.trialContrib, JP.safe_extract, lookupField, jeqStr, truthy, notNull,
      pyOr, bind, Except.bind]
  · simp +decide [summaryFieldOf, JP.process_file, parseDoc, JP.processData, pyGetD,
      JP.safe_extract, lookupField, pyLen, JP.calculate_convex_hull_area, JP.rawCoords,
      validCoords, pyIter, JP.usageDates, parseAllDates, sortedUniq, insertUniq,
      JP.dailyAndWeekly, JP.dailyLoop, JP.dayData, JP.sourceLoop, JP.taskLoop,
      JP.trialsLoop, JP.trialContrib, notNull, truthy, isObj, jeqStr, pyToRat,
      JP.dailyAdd, JP.weeklyAdd, JP.ordered4, JP.taskTypes3, JP.poolGet, JP.labelOf,
      JP.Pools.append, npMean, ratAll, extendAssoc, lookupPool, JP.weekAvg,
      JP.weekAvgTasks, JP.weekAvgAdd, sortStr, insertStr, strEndsWith, strSplit, chSplit,
      joinUnder, JP.overallAdd, JP.applyUpdates, updateAssoc, lookupAssoc, longestGapDays,
      longestStreakDays, streakLoop, gapsOf, pyMax, mkDataFrame, dedupStr, docR20,
      bind, Except.bind]

/-- The C3 amended theorem applied to `trialR2RS`-style inputs: with
`r2 = 0.0` and `rSquared = 0.75` the contribution is `0.75`; with
`kendallTau` null the distance contribution is empty. -/
theorem c3_mapping_metric_amended_witness :
    JP.trialContrib "manual" "mapping" trialR2RS =
      .ok (if notNull (pyOr (.num 0) (.num (3/4))) then
        { pointing := [], distance := [], mapping := [pyOr (.num 0) (.num (3/4))],
          kendallTau := [] }
      else { pointing := [], distance := [], mapping := [], kendallTau := [] })
    ∧ JP.trialContrib "manual" "distance"
        (.obj [("taskSource", .str "manual"), ("kendallTau", JValue.null)]) = .ok {} := by
  constructor
  · exact c3_mapping_metric_amended.1 "manual" trialR2RS (.num 0) (.num (3/4))
      (by simp +decide [JP.safe_extract, lookupField, trialR2RS])
      (by simp +decide [JP.safe_extract, lookupField, trialR2RS])
      (by simp +decide [JP.safe_extract, lookupField, trialR2RS])
  · exact c3_mapping_metric_amended.2.2.1 "manual"
      (.obj [("taskSource", .str "manual"), ("kendallTau", JValue.null)])
      (by simp +decide [JP.safe_extract, lookupField])
      (by simp +decide [JP.safe_extract, lookupField])

theorem extract_trial_data_shape {c : Doc} {sf tf : Option String} {df : DataFrame}
    (h : DE.extract_trial_data c sf tf = .ok df) :
    ∃ rs, df = mkDataFrame rs ∧ DE.trialRecordsOf c sf tf = .ok rs := by
  unfold DE.extract_trial_data at h
  rcases pyBind_ok_iff.mp h with ⟨rs, hrs, hdf⟩
  cases hdf
  exact ⟨rs, rfl, hrs⟩

theorem trialsBatchLoop_shape {sf tf : Option String} :
    ∀ (docs : List Doc) (dfs : List DataFrame),
      DE.trialsBatchLoop sf tf docs = .ok dfs →
      ∀ df ∈ dfs, ∃ rs, df = mkDataFrame rs := by
  intro docs
  induction docs with
  | nil =>
    intro dfs h df hmem
    simp [DE.trialsBatchLoop] at h
    subst h
    simp at hmem
  | cons c rest ih =>
    intro dfs h df hmem
    unfold DE.trialsBatchLoop at h
    rcases pyBind_ok_iff.mp h with ⟨d1, hd1, h2⟩
    rcases pyBind_ok_iff.mp h2 with ⟨drest, hdrest, h3⟩
    cases h3
    rcases List.mem_cons.mp hmem with hfirst | hrest2
    · subst hfirst
      rcases extract_trial_data_shape hd1 with ⟨rs, hrs, _⟩
      exact ⟨rs, hrs⟩
    · exact ih drest hdrest df hrest2

theorem flatMap_rows_nil :
    ∀ dfs : List DataFrame, dfs.flatMap DataFrame.rows = [] → ∀ d ∈ dfs, d.rows = [] := by
  intro dfs
  induction dfs with
  | nil => intro _ d hd; simp at hd
  | cons a rest ih =>
    intro h d hd
    rw [List.flatMap_cons] at h
    rcases List.append_eq_nil.mp h with ⟨h1, h2⟩
    rcases List.mem_cons.mp hd with rfl | hd2
    · exact h1
    · exact ih h2 d hd2

theorem flatMap_columns_nil :
    ∀ dfs : List DataFrame, (∀ d ∈ dfs, d.columns = []) → dfs.flatMap DataFrame.columns = [] := by
  intro dfs
  induction dfs with
  | nil => intro _; rfl
  | cons a rest ih =>
    intro h
    rw [List.flatMap_cons, ih (fun d hd => h d (List.mem_cons_of_mem a hd)),
      h a (List.mem_cons_self a rest)]
    rfl

/-- C4 counterexample: for a batch with one document holding one `assessment`
pointing trial under the source filter `"manual"` (no trial matches), the
concatenated trial table is empty with an EMPTY column list —
`pd.DataFrame([])` carries no columns — not the 9-column schema the claim
states. -/
theorem c4_empty_schema_counterexample :
    DE.allTrialsBatch [.ok docPointing] (some "manual") none =
      .ok { columns := [], rows := [] } := by
  simp +decide [DE.allTrialsBatch, DE.trialsBatchLoop, DE.extract_trial_data,
    DE.trialRecordsOf, parseDoc, DE.safe_extract, lookupField, pyGetD, pyIter,
    DE.entriesLoop, DE.sourceLoop, DE.taskLoop, DE.trialsLoop, DE.skipBySource,
    DE.skipByTask, DE.trialRecord, DE.accuracyOf, pyOr, truthy, notNull, pyToRat, isObj,
    jeqStr, JP.taskTypes3, docPointing, mkDataFrame, dedupStr, concatDF, bind, Except.bind]

/-- C4 amended: an unmatched filter combination yields an empty table without
error, but that empty table has an empty column list (the schema of
`pd.DataFrame([])`), not the 9-column schema; every row that IS produced
carries exactly the columns `userID, sessionID, taskSource, taskType, error,
kendallTau, distance_accuracy, r2, timestamp`, in that order, and an empty
upload batch in the summarizer likewise yields an empty, column-less table. -/
theorem c4_empty_table_schema_amended :
    (∀ userID sessionID tt trial r,
        DE.trialRecord userID sessionID tt trial = .ok r →
        r.map Prod.fst = ["userID", "sessionID", "taskSource", "taskType", "error",
          "kendallTau", "distance_accuracy", "r2", "timestamp"])
    ∧ (∀ (docs : List Doc) (sf tf : Option String) (df : DataFrame),
        DE.allTrialsBatch docs sf tf = .ok df → df.rows = [] → df.columns = [])
    ∧ DE.allTrialsBatch [.ok docPointing] (some "manual") none =
        .ok { columns := [], rows := [] }
    ∧ JP.process_uploaded_files projFix hullFix [] "assessment" =
        .ok { columns := [], rows := [] } := by
  refine ⟨?_, ?_, ?_, ?_⟩
  case refine_3 =>
    simp +decide [DE.allTrialsBatch, DE.trialsBatchLoop, DE.extract_trial_data,
      DE.trialRecordsOf, parseDoc, DE.safe_extract, lookupField, pyGetD, pyIter,
      DE.entriesLoop, DE.sourceLoop, DE.taskLoop, DE.trialsLoop, DE.skipBySource,
      DE.skipByTask, DE.trialRecord, DE.accuracyOf, pyOr, truthy, notNull, pyToRat, isObj,
      jeqStr, JP.taskTypes3, docPointing, mkDataFrame, dedupStr, concatDF, bind, Except.bind]
  · intro userID sessionID tt trial r h
    unfold DE.trialRecord at h
    rcases pyBind_ok_iff.mp h with ⟨v, _, hr⟩
    cases hr
    simp +decide
  · intro docs sf tf df h hrows
    unfold DE.allTrialsBatch at h
    rcases pyBind_ok_iff.mp h with ⟨dfs, hloop, hrest⟩
    by_cases he : dfs.isEmpty
    · simp [he] at hrest
    · simp [he] at hrest
      cases hrest
      have hall : ∀ d ∈ dfs, d.rows = [] := flatMap_rows_nil dfs hrows
      have hcols : ∀ d ∈ dfs, d.columns = [] := by
        intro d hd
        rcases trialsBatchLoop_shape docs dfs hloop d hd with ⟨rs, rfl⟩
        have : rs = [] := hall (mkDataFrame rs) hd
        subst this
        rfl
      show dedupStr (dfs.flatMap DataFrame.columns) = []
      rw [flatMap_columns_nil dfs hcols]
      rfl
  · simp [JP.process_uploaded_files, JP.filesLoop, mkDataFrame, dedupStr, bind, Except.bind]

/-- The C4 amended theorem applied at a concrete record and at the concrete
no-match batch. -/
theorem c4_empty_table_schema_amended_witness :
    List.map Prod.fst
      [("userID", JValue.null), ("sessionID", JValue.null), ("taskSource", JValue.null),
       ("taskType", JValue.str "pointing"), ("error", JValue.null),
       ("kendallTau", JValue.null), ("distance_accuracy", JValue.null),
       ("r2", JValue.null), ("timestamp", JValue.null)] =
      ["userID", "sessionID", "taskSource", "taskType", "error", "kendallTau",
        "distance_accuracy", "r2", "timestamp"]
    ∧ (DataFrame.mk [] []).columns = [] := by
  constructor
  · exact c4_empty_table_schema_amended.1 .null .null "pointing" (.obj [])
      _ (by simp +decide [DE.trialRecord, DE.safe_extract, lookupField, DE.accuracyOf,
        notNull, pyOr, truthy, bind, Except.bind])
  · exact c4_empty_table_schema_amended.2.1 [.ok docPointing] (some "manual") none
      (DataFrame.mk [] [])
      (by simp +decide [DE.allTrialsBatch, DE.trialsBatchLoop, DE.extract_trial_data,
        DE.trialRecordsOf, parseDoc, DE.safe_extract, lookupField, pyGetD, pyIter,
        DE.entriesLoop, DE.sourceLoop, DE.taskLoop, DE.trialsLoop, DE.skipBySource,
        DE.skipByTask, DE.trialRecord, DE.accuracyOf, pyOr, truthy, notNull, pyToRat,
        isObj, jeqStr, JP.taskTypes3, docPointing, mkDataFrame, dedupStr, concatDF,
        bind, Except.bind])
      rfl

theorem trialsBatchLoop_err (sf tf : Option String) :
    ∀ docs : List Doc, Except.error () ∈ docs →
      ∃ e, DE.trialsBatchLoop sf tf docs = .error e := by
  intro docs
  induction docs with
  | nil => intro h; simp at h
  | cons c rest ih =>
    intro h
    rcases List.mem_cons.mp h with rfl | h2
    · exact ⟨.jsonDecodeError, rfl⟩
    · cases hd : DE.extract_trial_data c sf tf with
      | error e => exact ⟨e, by simp [DE.trialsBatchLoop, hd, bind, Except.bind]⟩
      | ok df =>
        rcases ih h2 with ⟨e, he⟩
        exact ⟨e, by simp [DE.trialsBatchLoop, hd, he, bind, Except.bind]⟩

theorem overviewLoop_err :
    ∀ docs : List Doc, Except.error () ∈ docs →
      ∃ e, DE.overviewLoop docs = .error e := by
  intro docs
  induction docs with
  | nil => intro h; simp at h
  | cons c rest ih =>
    intro h
    rcases List.mem_cons.mp h with rfl | h2
    · exact ⟨.jsonDecodeError, rfl⟩
    · cases hc : parseDoc c with
      | error e => exact ⟨e, by simp [DE.overviewLoop, hc, bind, Except.bind]⟩
      | ok data =>
        cases hr : DE.sessionOverviewRow data with
        | error e => exact ⟨e, by simp [DE.overviewLoop, hc, hr, bind, Except.bind]⟩
        | ok r =>
          rcases ih h2 with ⟨e, he⟩
          exact ⟨e, by simp [DE.overviewLoop, hc, hr, he, bind, Except.bind]⟩

/-- C5 counterexample: one syntactically invalid document DOES abort the
explorer's batch loops — both the trial-table batch (even though a good
document follows) and the overview batch raise the parse error instead of
skipping it. -/
theorem c5_parse_abort_counterexample :
    DE.allTrialsBatch [.error (), .ok docPointing] none none = .error .jsonDecodeError
    ∧ DE.sessionOverviewBatch [.error ()] = .error .jsonDecodeError := by
  constructor
  · rfl
  · rfl

/-- C5 amended: only the summarizer's batch driver catches the document parse
error: a malformed document is skipped there (warning surfaced in the UI) and
the batch result is exactly that of the remaining documents; the explorer's
batch loops have no handler, so a batch containing a malformed document
errors out as a whole. -/
theorem c5_parse_error_isolation_amended :
    (∀ project hullArea (docs : List Doc) sf,
        JP.process_uploaded_files project hullArea (Except.error () :: docs) sf =
          JP.process_uploaded_files project hullArea docs sf)
    ∧ (∀ (docs : List Doc) sf tf, Except.error () ∈ docs →
        ∃ e, DE.allTrialsBatch docs sf tf = .error e)
    ∧ (∀ docs : List Doc, Except.error () ∈ docs →
        ∃ e, DE.sessionOverviewBatch docs = .error e) := by
  refine ⟨?_, ?_, ?_⟩
  · intro project hullArea docs sf
    have : JP.process_file project hullArea (.error ()) sf = .error .jsonDecodeError := rfl
    simp [JP.process_uploaded_files, JP.filesLoop, this]
  · intro docs sf tf h
    rcases trialsBatchLoop_err sf tf docs h with ⟨e, he⟩
    exact ⟨e, by simp [DE.allTrialsBatch, he, bind, Except.bind]⟩
  · intro docs h
    rcases overviewLoop_err docs h with ⟨e, he⟩
    exact ⟨e, by simp [DE.sessionOverviewBatch, he, bind, Except.bind]⟩

/-- The C5 amended theorem applied at concrete batches: prepending a malformed
document to the summarizer batch leaves the result unchanged, while the
explorer batch with a malformed document errors. -/
theorem c5_parse_error_isolation_amended_witness :
    JP.process_uploaded_files projFix hullFix [Except.error (), .ok docPointing] "assessment" =
      JP.process_uploaded_files projFix hullFix [.ok docPointing] "assessment"
    ∧ (∃ e, DE.allTrialsBatch [Except.error ()] none none = .error e) := by
  constructor
  · exact c5_parse_error_isolation_amended.1 projFix hullFix [.ok docPointing] "assessment"
  · exact c5_parse_error_isolation_amended.2.1 [Except.error ()] none none (by simp)

/-- Lengths of the maximal runs of consecutive integers in a sorted list —
the specification-side notion of "run of consecutive calendar days". -/
def runLens : List ℕ → List ℕ
  | [] => []
  | [_] => [1]
  | a :: b :: rest =>
    if b = a + 1 then
      match runLens (b :: rest) with
      | [] => [2]
      | n :: ns => (n + 1) :: ns
    else 1 :: runLens (b :: rest)

def listMax (l : List ℕ) : ℕ := l.foldr max 0

/-- Run lengths when the first run is already `s` long and ends at `prev`. -/
def augRuns (prev s : ℕ) : List ℕ → List ℕ
  | [] => [s]
  | d :: rest => if d = prev + 1 then augRuns d (s + 1) rest else s :: augRuns d 1 rest

theorem le_foldl_max : ∀ (xs : List ℤ) (x : ℤ), x ≤ xs.foldl max x := by
  intro xs
  induction xs with
  | nil => intro x; exact le_refl x
  | cons y ys ih =>
    intro x
    calc x ≤ max x y := le_max_left x y
    _ ≤ ys.foldl max (max x y) := ih (max x y)

theorem foldl_max_mem : ∀ (xs : List ℤ) (x : ℤ), xs.foldl max x ∈ x :: xs := by
  intro xs
  induction xs with
  | nil => intro x; simp
  | cons y ys ih =>
    intro x
    have h := ih (max x y)
    rcases max_choice x y with hc | hc <;> rw [hc] at h <;>
      simp only [List.foldl_cons, hc] <;> rcases List.mem_cons.mp h with h2 | h2 <;>
        simp [h2]

theorem mem_le_foldl_max : ∀ (xs : List ℤ) (x z : ℤ), z ∈ x :: xs → z ≤ xs.foldl max x := by
  intro xs
  induction xs with
  | nil => intro x z h; simp at h; simp [h]
  | cons y ys ih =>
    intro x z h
    simp only [List.foldl_cons]
    rcases List.mem_cons.mp h with rfl | h2
    · calc z ≤ max z y := le_max_left z y
      _ ≤ ys.foldl max (max z y) := le_foldl_max ys (max z y)
    · rcases List.mem_cons.mp h2 with rfl | h3
      · calc z ≤ max x z := le_max_right x z
        _ ≤ ys.foldl max (max x z) := le_foldl_max ys (max x z)
      · exact ih (max x y) z (List.mem_cons_of_mem (max x y) h3)

theorem augRuns_cons (prev s d : ℕ) (rest : List ℕ) :
    augRuns prev s (d :: rest) =
      if d = prev + 1 then augRuns d (s + 1) rest else s :: augRuns d 1 rest := rfl

theorem streakLoop_cons (prev s L d : ℕ) (rest : List ℕ) :
    streakLoop prev s L (d :: rest) =
      if d = prev + 1 then streakLoop d (s + 1) (max L (s + 1)) rest
      else streakLoop d 1 L rest := rfl

theorem runLens_cons2 (a b : ℕ) (rest : List ℕ) :
    runLens (a :: b :: rest) =
      if b = a + 1 then
        (match runLens (b :: rest) with
          | [] => [2]
          | n :: ns => (n + 1) :: ns)
      else 1 :: runLens (b :: rest) := rfl

theorem listMax_cons (a : ℕ) (l : List ℕ) : listMax (a :: l) = max a (listMax l) := rfl

theorem le_listMax_augRuns : ∀ (l : List ℕ) (prev s : ℕ), s ≤ listMax (augRuns prev s l) := by
  intro l
  induction l with
  | nil => intro prev s; simp [augRuns, listMax]
  | cons d rest ih =>
    intro prev s
    rw [augRuns_cons]
    by_cases h : d = prev + 1
    · rw [if_pos h]
      have h2 := ih d (s + 1)
      omega
    · rw [if_neg h, listMax_cons]
      omega

theorem streakLoop_eq : ∀ (l : List ℕ) (prev s L : ℕ), 1 ≤ L → s ≤ L →
    streakLoop prev s L l = max L (listMax (augRuns prev s l)) := by
  intro l
  induction l with
  | nil =>
    intro prev s L h1 h2
    show L = max L (listMax [s])
    rw [listMax_cons, show listMax [] = 0 from rfl]
    omega
  | cons d rest ih =>
    intro prev s L h1 h2
    rw [streakLoop_cons, augRuns_cons]
    by_cases h : d = prev + 1
    · rw [if_pos h, if_pos h]
      rw [ih d (s + 1) (max L (s + 1)) (by omega) (by omega)]
      have h3 := le_listMax_augRuns rest d (s + 1)
      omega
    · rw [if_neg h, if_neg h]
      rw [ih d 1 L h1 h1, listMax_cons]
      omega

theorem augRuns_shift : ∀ (l : List ℕ) (prev s : ℕ),
    augRuns prev (s + 1) l =
      (match augRuns prev 1 l with
        | [] => [s + 1]
        | n :: ns => (n + s) :: ns) := by
  intro l
  induction l with
  | nil =>
    intro prev s
    show [s + 1] = [1 + s]
    simp [Nat.add_comm]
  | cons d rest ih =>
    intro prev s
    rw [augRuns_cons, augRuns_cons]
    by_cases h : d = prev + 1
    · rw [if_pos h, if_pos h, ih d (s + 1), ih d 1]
      cases hr : augRuns d 1 rest with
      | nil => simp <;> omega
      | cons n ns => simp <;> omega
    · rw [if_neg h, if_neg h]
      simp <;> omega

theorem runLens_eq_augRuns : ∀ (l : List ℕ) (a : ℕ), runLens (a :: l) = augRuns a 1 l := by
  intro l
  induction l with
  | nil => intro a; rfl
  | cons b rest ih =>
    intro a
    rw [runLens_cons2, augRuns_cons]
    by_cases h : b = a + 1
    · rw [if_pos h, if_pos h, ih b]
      rw [augRuns_shift rest b 1]
    · rw [if_neg h, if_neg h, ih b]

/-- C6: gaps and streaks over the sorted unique parsed dates.
`longest_gap_days` is null exactly when fewer than 2 unique days exist, and
otherwise is the maximum consecutive-day delta; the streak loop computes
the length of the longest run of consecutive calendar days (floored at its
initialisation value 1); on the dates 2024-01-01, -02, -03 and -10 `process_file`
reports `longest_streak_days = 3` and `longest_gap_days = 7`. -/
theorem c6_gaps_and_streaks :
    (∀ days : List ℕ, longestGapDays days = none ↔ days.length < 2)
    ∧ (∀ (days : List ℕ) (g : ℤ), longestGapDays days = some g →
        g ∈ gapsOf days ∧ ∀ x ∈ gapsOf days, x ≤ g)
    ∧ (∀ days : List ℕ, longestStreakDays days = max 1 (listMax (runLens days)))
    ∧ (∀ project hullArea,
        summaryFieldOf project hullArea (.ok docDates) "assessment"
          "longest_streak_days" = .ok [some (.num 3)]
        ∧ summaryFieldOf project hullArea (.ok docDates) "assessment"
          "longest_gap_days" = .ok [some (.num 7)]) := by
  refine ⟨?_, ?_, ?_, ?_⟩
  · intro days
    rcases days with _ | ⟨a, _ | ⟨b, rest⟩⟩ <;>
      simp [longestGapDays, gapsOf, pyMax]
  · intro days g h
    unfold longestGapDays at h
    cases hg : gapsOf days with
    | nil => rw [hg] at h; simp [pyMax] at h
    | cons x xs =>
      rw [hg] at h
      simp only [pyMax, Option.some.injEq] at h
      subst h
      constructor
      · exact foldl_max_mem xs x
      · intro z hz
        exact mem_le_foldl_max xs x z hz
  · intro days
    cases days with
    | nil => rfl
    | cons d rest =>
      show streakLoop d 1 1 rest = _
      rw [streakLoop_eq rest d 1 1 (le_refl 1) (le_refl 1), runLens_eq_augRuns rest d]
  · intro project hullArea
    constructor <;>
    · simp +decide [summaryFieldOf, JP.process_file, parseDoc, JP.processData, pyGetD,
        JP.safe_extract, lookupField, pyLen, JP.calculate_convex_hull_area, JP.rawCoords,
        validCoords, pyIter, JP.usageDates, parseAllDates, parseDate, parseYMD, strSplit,
        chSplit, digitsVal, digitsValGo, toDays, monthOffset, monthDays, isLeap,
        sortedUniq, insertUniq, JP.dailyAndWeekly, JP.dailyLoop, JP.dayData, JP.sourceLoop,
        JP.taskLoop, JP.trialsLoop, JP.trialContrib, notNull, truthy, isObj, jeqStr,
        pyToRat, JP.dailyAdd, JP.weeklyAdd, JP.ordered4, JP.taskTypes3, JP.poolGet,
        JP.labelOf, JP.Pools.append, npMean, ratAll, extendAssoc, lookupPool, JP.weekAvg,
        JP.weekAvgTasks, JP.weekAvgAdd, sortStr, insertStr, strEndsWith, joinUnder,
        JP.overallAdd, JP.applyUpdates, updateAssoc, lookupAssoc, longestGapDays,
        longestStreakDays, streakLoop, gapsOf, pyMax, formatDate, fromDays, pad4, pad2,
        mkDataFrame, dedupStr, docDates, mkDayEntry, bind, Except.bind]

/-- The C6 theorem applied at the unique sorted days of the example dates
(rata-die ordinals of 2024-01-01..03 and 2024-01-10). -/
theorem c6_gaps_and_streaks_witness :
    ((7 : ℤ) ∈ gapsOf [738886, 738887, 738888, 738895]) := by
  exact (c6_gaps_and_streaks.2.1 [738886, 738887, 738888, 738895] 7 (by decide)).1

/-- C7: both hull computations first keep only coordinate pairs with both
components non-null, and with fewer than 3 such points return null (`None` /
`np.nan`) — a normal value, not zero and not an error. -/
theorem c7_hull_null_below_three_points :
    (∀ project hullArea (ls : List JValue) cs, JP.rawCoords ls = .ok cs →
        (validCoords cs).length < 3 →
        JP.calculate_convex_hull_area project hullArea (.arr ls) = .ok none)
    ∧ (∀ project hullArea (rows : List DE.LRow) u,
        (validCoords ((rows.filter (fun r => jbeq r.userID u)).map
            (fun r => (r.longitude, r.latitude)))).length < 3 →
        DE.userHullRow project hullArea rows u =
          .ok ⟨u, none, (validCoords ((rows.filter (fun r => jbeq r.userID u)).map
            (fun r => (r.longitude, r.latitude)))).length⟩) := by
  constructor
  · intro project hullArea ls cs h h2
    simp only [JP.calculate_convex_hull_area, pyIter, h, bind, Except.bind]
    rw [if_neg (by omega)]
  · intro project hullArea rows u h
    simp only [DE.userHullRow]
    rw [if_neg (by omega)]

/-- The C7 theorem applied to two valid landmarks (summarizer) and one
single-row user table (explorer). -/
theorem c7_hull_null_below_three_points_witness :
    JP.calculate_convex_hull_area projFix hullFix
      (.arr [.obj [("longitude", .num 0), ("latitude", .num 0)],
             .obj [("longitude", .num 1), ("latitude", .num 1)]]) = .ok none
    ∧ DE.userHullRow projFix hullFix [⟨.str "u", .num 0, .num 0, .null⟩] (.str "u") =
        .ok ⟨.str "u", none,
          (validCoords (([(⟨.str "u", .num 0, .num 0, .null⟩ : DE.LRow)].filter
            (fun r => jbeq r.userID (.str "u"))).map
            (fun r => (r.longitude, r.latitude)))).length⟩ := by
  constructor
  · exact c7_hull_null_below_three_points.1 projFix hullFix _
      [(.num 0, .num 0), (.num 1, .num 1)] (by rfl) (by decide)
  · exact c7_hull_null_below_three_points.2 projFix hullFix
      [⟨.str "u", .num 0, .num 0, .null⟩] (.str "u") (by decide)

theorem okBind {α β : Type} (a : α) (f : α → Py β) : (Except.ok a >>= f) = f a := rfl

theorem errBind {α β : Type} (e : PyErr) (f : α → Py β) :
    ((Except.error e : Py α) >>= f) = Except.error e := rfl

theorem dailyLoop_cons (sf : String) (e : JValue) (rest : List JValue)
    (idx : ℕ) (td : JP.Pools) (dm : Row) (wm : List (String × List JValue)) :
    JP.dailyLoop sf (e :: rest) idx td dm wm = (do
      let rbs ← JP.safe_extract e "resultsBySource"
      let dd ← if truthy rbs then JP.dayData sf rbs else .ok {}
      let dm2 ← JP.dailyAdd sf idx dd JP.ordered4 dm
      let wm2 := JP.weeklyAdd sf ((idx - 1) / 7 + 1) dd JP.ordered4 wm
      JP.dailyLoop sf rest (idx + 1) (td.append dd) dm2 wm2) := rfl

theorem dailyLoop_congr (sf : String) :
    ∀ (es1 es2 : List JValue),
      List.Forall₂ (fun a b => JP.safe_extract a "resultsBySource" =
        JP.safe_extract b "resultsBySource") es1 es2 →
      ∀ (idx : ℕ) (td : JP.Pools) (dm : Row) (wm : List (String × List JValue)),
        JP.dailyLoop sf es1 idx td dm wm = JP.dailyLoop sf es2 idx td dm wm := by
  intro es1 es2 h
  induction h with
  | nil => intro idx td dm wm; rfl
  | @cons a b l1 l2 ha hl ih =>
    intro idx td dm wm
    rw [dailyLoop_cons, dailyLoop_cons, ha]
    cases hrbs : JP.safe_extract b "resultsBySource" with
    | error e => rfl
    | ok rbs =>
      simp only [okBind]
      by_cases htr : truthy rbs
      · rw [if_pos htr, if_pos htr]
        cases hdd : JP.dayData sf rbs with
        | error e => simp only [errBind]
        | ok dd =>
          simp only [okBind]
          cases hdm : JP.dailyAdd sf idx dd JP.ordered4 dm with
          | error e => simp only [errBind]
          | ok dm2 =>
            simp only [okBind]
            exact ih (idx + 1) (td.append dd) dm2 _
      · rw [if_neg htr, if_neg htr]
        cases hdm : JP.dailyAdd sf idx {} JP.ordered4 dm with
        | error e => simp only [errBind]
        | ok dm2 =>
          simp only [okBind]
          exact ih (idx + 1) (td.append {}) dm2 _

/-- C8: the week number of a daily entry comes solely from its 1-based
ordinal via `(ordinal - 1) // 7 + 1`: the whole daily/weekly aggregation is
invariant under changing every entry's `date` (only `resultsBySource` is
consulted), the loop step pools the entry at ordinal `idx` under week
`(idx - 1) / 7 + 1`, and in `doc8` (8 entries, all dated 2020-05-05, single
pointing trial in the 8th) the trial lands in `Week2`, not `Week1`. -/
theorem c8_week_bucketing_by_ordinal :
    (∀ sf (es1 es2 : List JValue),
        List.Forall₂ (fun a b => JP.safe_extract a "resultsBySource" =
          JP.safe_extract b "resultsBySource") es1 es2 →
        JP.dailyAndWeekly sf es1 = JP.dailyAndWeekly sf es2)
    ∧ (∀ (sf : String) (e : JValue) (rest : List JValue) (idx : ℕ) (td : JP.Pools)
        (dm : Row) (wm : List (String × List JValue)),
        JP.dailyLoop sf (e :: rest) idx td dm wm = (do
          let rbs ← JP.safe_extract e "resultsBySource"
          let dd ← if truthy rbs then JP.dayData sf rbs else .ok {}
          let dm2 ← JP.dailyAdd sf idx dd JP.ordered4 dm
          let wm2 := JP.weeklyAdd sf ((idx - 1) / 7 + 1) dd JP.ordered4 wm
          JP.dailyLoop sf rest (idx + 1) (td.append dd) dm2 wm2))
    ∧ (∀ project hullArea,
        summaryFieldOf project hullArea (.ok doc8) "assessment"
          "Week2_assessment_Pointing_Error" = .ok [some (.num (5/2))]
        ∧ summaryFieldOf project hullArea (.ok doc8) "assessment"
          "Day8_assessment_Pointing_Error" = .ok [some (.num (5/2))]
        ∧ summaryFieldOf project hullArea (.ok doc8) "assessment"
          "Week1_assessment_Pointing_Error" = .ok [none]) := by
  refine ⟨?_, ?_, ?_⟩
  · intro sf es1 es2 h
    exact dailyLoop_congr sf es1 es2 h 1 {} [] []
  · intro sf e rest idx td dm wm
    rfl
  · intro project hullArea
    refine ⟨?_, ?_, ?_⟩ <;>
    · simp +decide [summaryFieldOf, JP.process_file, parseDoc, JP.processData, pyGetD,
        JP.safe_extract, lookupField, pyLen, JP.calculate_convex_hull_area, JP.rawCoords,
        validCoords, pyIter, JP.usageDates, parseAllDates, parseDate, parseYMD, strSplit,
        chSplit, digitsVal, digitsValGo, toDays, monthOffset, monthDays, isLeap,
        sortedUniq, insertUniq, JP.dailyAndWeekly, JP.dailyLoop, JP.dayData, JP.sourceLoop,
        JP.taskLoop, JP.trialsLoop, JP.trialContrib, notNull, truthy, isObj, jeqStr,
        pyToRat, JP.dailyAdd, JP.weeklyAdd, JP.ordered4, JP.taskTypes3, JP.poolGet,
        JP.labelOf, JP.Pools.append, npMean, ratAll, extendAssoc, lookupPool, JP.weekAvg,
        JP.weekAvgTasks, JP.weekAvgAdd, sortStr, insertStr, strEndsWith, joinUnder,
        JP.overallAdd, JP.applyUpdates, updateAssoc, lookupAssoc, longestGapDays,
        longestStreakDays, streakLoop, gapsOf, pyMax, formatDate, fromDays, pad4, pad2,
        mkDataFrame, dedupStr, doc8, mkDayEntry, bind, Except.bind] <;> norm_num

/-- The C8 theorem applied at two single-entry lists that differ only in
their dates. -/
theorem c8_week_bucketing_by_ordinal_witness :
    JP.dailyAndWeekly "assessment" [mkDayEntry "2020-05-05" none] =
      JP.dailyAndWeekly "assessment" [mkDayEntry "1999-12-31" none] := by
  exact c8_week_bucketing_by_ordinal.1 "assessment" _ _
    (List.Forall₂.cons rfl List.Forall₂.nil)

theorem ratAll_map_num : ∀ l : List ℚ, ratAll (l.map JValue.num) = .ok l := by
  intro l
  induction l with
  | nil => rfl
  | cons q rest ih => simp [ratAll, pyToRat, ih, bind, Except.bind]

theorem zip_map_fst_snd : ∀ l : List (ℚ × ℚ), (l.map Prod.fst).zip (l.map Prod.snd) = l := by
  intro l
  induction l with
  | nil => rfl
  | cons p rest ih => simp [ih]

theorem pyTrunc_floor {q : ℚ} (h : 0 ≤ q) : pyTrunc q = ⌊q⌋ := if_pos h

theorem ratAll_proj_fst (pts : List (ℚ × ℚ)) :
    ratAll ((pts.map (fun p => (JValue.num p.1, JValue.num p.2))).map Prod.fst) =
      .ok (pts.map Prod.fst) := by
  rw [List.map_map,
    show (Prod.fst ∘ fun p : ℚ × ℚ => (JValue.num p.1, JValue.num p.2)) =
      (JValue.num ∘ Prod.fst) from rfl,
    ← List.map_map, ratAll_map_num]

theorem ratAll_proj_snd (pts : List (ℚ × ℚ)) :
    ratAll ((pts.map (fun p => (JValue.num p.1, JValue.num p.2))).map Prod.snd) =
      .ok (pts.map Prod.snd) := by
  rw [List.map_map,
    show (Prod.snd ∘ fun p : ℚ × ℚ => (JValue.num p.1, JValue.num p.2)) =
      (JValue.num ∘ Prod.snd) from rfl,
    ← List.map_map, ratAll_map_num]

/-- C9: with at least 3 valid points (here: numeric coordinate pairs `pts`
after the null filter) the hull value is exactly the external planar hull
area of the points reprojected into EPSG `32600 + zone` (northern mean
latitude, `mean_lat >= 0`) or `32700 + zone` (southern), divided by 1e6,
where `zone = floor((mean_lon + 180) / 6) + 1` over the arithmetic mean
longitude — the code's `int()` truncation agrees with `floor` because
geographic longitudes keep `mean_lon + 180` nonnegative. -/
theorem c9_utm_epsg_and_area :
    ∀ project hullArea (ls : List JValue) cs (pts : List (ℚ × ℚ)),
      JP.rawCoords ls = .ok cs →
      validCoords cs = pts.map (fun p => (JValue.num p.1, JValue.num p.2)) →
      3 ≤ pts.length →
      -180 ≤ meanQ (pts.map Prod.fst) →
      JP.calculate_convex_hull_area project hullArea (.arr ls) =
        .ok (some (hullArea (pts.map (project
          ((if 0 ≤ meanQ (pts.map Prod.snd) then 32600 else 32700) +
            (⌊(meanQ (pts.map Prod.fst) + 180) / 6⌋ + 1)))) / 1000000)) := by
  intro project hullArea ls cs pts h1 h2 h3 h4
  simp only [JP.calculate_convex_hull_area, pyIter, okBind, h1, h2]
  rw [if_pos (by rw [List.length_map]; exact h3)]
  simp only [hullAreaKm2, ratAll_proj_fst, ratAll_proj_snd, okBind, zip_map_fst_snd]
  rw [pyTrunc_floor (div_nonneg (by linarith) (by norm_num))]

/-- The C9 theorem applied to the three points `(0,0), (6,0), (0,6)`
(mean longitude 2, mean latitude 2, UTM zone 31, EPSG 32631). -/
theorem c9_utm_epsg_and_area_witness :
    JP.calculate_convex_hull_area projFix hullFix
      (.arr [.obj [("longitude", .num 0), ("latitude", .num 0)],
             .obj [("longitude", .num 6), ("latitude", .num 0)],
             .obj [("longitude", .num 0), ("latitude", .num 6)]]) =
      .ok (some (hullFix ([((0:ℚ),(0:ℚ)), (6,0), (0,6)].map (projFix
        ((if 0 ≤ meanQ ([((0:ℚ),(0:ℚ)), (6,0), (0,6)].map Prod.snd) then 32600 else 32700) +
          (⌊(meanQ ([((0:ℚ),(0:ℚ)), (6,0), (0,6)].map Prod.fst) + 180) / 6⌋ + 1)))) /
        1000000)) := by
  exact c9_utm_epsg_and_area projFix hullFix _
    [(.num 0, .num 0), (.num 6, .num 0), (.num 0, .num 6)]
    [((0:ℚ),(0:ℚ)), (6,0), (0,6)] rfl rfl (by decide)
    (by norm_num [meanQ, List.sum_cons, List.sum_nil])

theorem lookupAssoc_updateAssoc_ne : ∀ (r : Row) (k : String) (v : JValue) (k0 : String),
    k ≠ k0 → lookupAssoc (updateAssoc r k v) k0 = lookupAssoc r k0 := by
  intro r
  induction r with
  | nil =>
    intro k v k0 h
    simp [updateAssoc, lookupAssoc, h]
  | cons kv rest ih =>
    intro k v k0 h
    rcases kv with ⟨k1, v1⟩
    simp only [updateAssoc]
    by_cases h1 : k1 = k
    · rw [if_pos h1]
      simp only [lookupAssoc]
      by_cases h2 : k1 = k0
      · exact absurd (h1 ▸ h2 : k = k0) (by rw [← h1] at h; exact h1 ▸ h)
      · rw [if_neg h2, if_neg h2]
    · rw [if_neg h1]
      simp only [lookupAssoc]
      by_cases h2 : k1 = k0
      · rw [if_pos h2, if_pos h2]
      · rw [if_neg h2, if_neg h2]
        exact ih k v k0 h

theorem mem_updateAssoc : ∀ (r : Row) (k : String) (v : JValue) (kv : String × JValue),
    kv ∈ updateAssoc r k v → kv ∈ r ∨ kv.1 = k := by
  intro r
  induction r with
  | nil =>
    intro k v kv h
    simp [updateAssoc] at h
    subst h
    exact Or.inr rfl
  | cons kv1 rest ih =>
    intro k v kv h
    rcases kv1 with ⟨k1, v1⟩
    simp only [updateAssoc] at h
    by_cases h1 : k1 = k
    · rw [if_pos h1] at h
      rcases List.mem_cons.mp h with rfl | h2
      · exact Or.inr (by simpa using h1)
      · exact Or.inl (List.mem_cons_of_mem _ h2)
    · rw [if_neg h1] at h
      rcases List.mem_cons.mp h with rfl | h2
      · exact Or.inl (List.mem_cons_self _ _)
      · rcases ih k v kv h2 with h3 | h3
        · exact Or.inl (List.mem_cons_of_mem _ h3)
        · exact Or.inr h3

theorem lookupAssoc_applyUpdates_ne : ∀ (kvs : Row) (r : Row) (k0 : String),
    (∀ kv ∈ kvs, kv.1 ≠ k0) →
    lookupAssoc (JP.applyUpdates r kvs) k0 = lookupAssoc r k0 := by
  intro kvs
  induction kvs with
  | nil => intro r k0 _; rfl
  | cons kv rest ih =>
    intro r k0 h
    show lookupAssoc (JP.applyUpdates (updateAssoc r kv.1 kv.2) rest) k0 = _
    rw [ih (updateAssoc r kv.1 kv.2) k0 (fun x hx => h x (List.mem_cons_of_mem kv hx)),
      lookupAssoc_updateAssoc_ne r kv.1 kv.2 k0 (h kv (List.mem_cons_self kv rest))]

theorem day_key_ne : ∀ rest : String, "Day" ++ rest ≠ "deleted_landmarks" := by
  intro rest h
  have h2 := congrArg String.data h
  simp [String.data_append] at h2

theorem overall_key_ne : ∀ rest : String, "Overall_" ++ rest ≠ "deleted_landmarks" := by
  intro rest h
  have h2 := congrArg String.data h
  simp [String.data_append] at h2

theorem week_label_key_ne : ∀ p t : String,
    p ++ "_" ++ JP.labelOf t ≠ "deleted_landmarks" := by
  intro p t h
  have h2 : ('_' :: (JP.labelOf t).data) <:+ "deleted_landmarks".data := by
    refine ⟨p.data, ?_⟩
    have h3 := congrArg String.data h
    simpa [String.data_append] using h3
  unfold JP.labelOf at h2
  split_ifs at h2 <;> revert h2 <;> decide

theorem dailyAdd_mem (sf : String) (idx : ℕ) (dd : JP.Pools) :
    ∀ (ts : List String) (dm dm2 : Row), JP.dailyAdd sf idx dd ts dm = .ok dm2 →
      ∀ kv ∈ dm2, kv ∈ dm ∨ ∃ rest, kv.1 = "Day" ++ rest := by
  intro ts
  induction ts with
  | nil =>
    intro dm dm2 h kv hkv
    simp only [JP.dailyAdd] at h
    cases h
    exact Or.inl hkv
  | cons t rest ih =>
    intro dm dm2 h kv hkv
    unfold JP.dailyAdd at h
    by_cases hp : (JP.poolGet dd t).isEmpty
    · simp only [hp, if_true, okBind] at h
      exact ih dm dm2 h kv hkv
    · simp only [hp, Bool.false_eq_true, if_false, okBind] at h
      rcases pyBind_ok_iff.mp h with ⟨m, _, hrec⟩
      rcases ih _ dm2 hrec kv hkv with h2 | h2
      · rcases mem_updateAssoc _ _ _ kv h2 with h3 | h3
        · exact Or.inl h3
        · exact Or.inr ⟨toString idx ++ "_" ++ sf ++ "_" ++ JP.labelOf t, by
            rw [h3]; simp [String.append_assoc]⟩
      · exact Or.inr h2

theorem dailyLoop_dm_mem (sf : String) :
    ∀ (entries : List JValue) (idx : ℕ) (td : JP.Pools) (dm : Row)
      (wm : List (String × List JValue))
      (res : JP.Pools × Row × List (String × List JValue)),
      JP.dailyLoop sf entries idx td dm wm = .ok res →
      ∀ kv ∈ res.2.1, kv ∈ dm ∨ ∃ rest, kv.1 = "Day" ++ rest := by
  intro entries
  induction entries with
  | nil =>
    intro idx td dm wm res h kv hkv
    simp only [JP.dailyLoop] at h
    cases h
    exact Or.inl hkv
  | cons e rest ih =>
    intro idx td dm wm res h kv hkv
    rw [dailyLoop_cons] at h
    rcases pyBind_ok_iff.mp h with ⟨rbs, _, h2⟩
    by_cases htr : truthy rbs
    · simp only [htr, if_true] at h2
      rcases pyBind_ok_iff.mp h2 with ⟨dd, _, h3⟩
      rcases pyBind_ok_iff.mp h3 with ⟨dm2, hdm2, hrec⟩
      rcases ih _ _ _ _ _ hrec kv hkv with h4 | h4
      · exact dailyAdd_mem sf idx dd JP.ordered4 dm dm2 hdm2 kv h4
      · exact Or.inr h4
    · simp only [htr, Bool.false_eq_true, if_false, okBind] at h2
      rcases pyBind_ok_iff.mp h2 with ⟨dm2, hdm2, hrec⟩
      rcases ih _ _ _ _ _ hrec kv hkv with h4 | h4
      · exact dailyAdd_mem sf idx {} JP.ordered4 dm dm2 hdm2 kv h4
      · exact Or.inr h4

theorem weekAvgAdd_mem (t : String) (wm : List (String × List JValue)) :
    ∀ (ks : List String) (acc acc2 : Row), JP.weekAvgAdd t wm ks acc = .ok acc2 →
      ∀ kv ∈ acc2, kv ∈ acc ∨ ∃ p, kv.1 = p ++ "_" ++ JP.labelOf t := by
  intro ks
  induction ks with
  | nil =>
    intro acc acc2 h kv hkv
    simp only [JP.weekAvgAdd] at h
    cases h
    exact Or.inl hkv
  | cons wk rest ih =>
    intro acc acc2 h kv hkv
    unfold JP.weekAvgAdd at h
    rcases pyBind_ok_iff.mp h with ⟨m, _, hrec⟩
    rcases ih _ acc2 hrec kv hkv with h2 | h2
    · rcases mem_updateAssoc _ _ _ kv h2 with h3 | h3
      · exact Or.inl h3
      · exact Or.inr ⟨joinUnder ((strSplit wk '_').take 2), h3⟩
    · exact Or.inr h2

theorem weekAvgTasks_mem (wm : List (String × List JValue)) :
    ∀ (ts : List String) (acc acc2 : Row), JP.weekAvgTasks wm ts acc = .ok acc2 →
      ∀ kv ∈ acc2, kv ∈ acc ∨ ∃ p t, kv.1 = p ++ "_" ++ JP.labelOf t := by
  intro ts
  induction ts with
  | nil =>
    intro acc acc2 h kv hkv
    simp only [JP.weekAvgTasks] at h
    cases h
    exact Or.inl hkv
  | cons t rest ih =>
    intro acc acc2 h kv hkv
    unfold JP.weekAvgTasks at h
    rcases pyBind_ok_iff.mp h with ⟨acc', hacc', hrec⟩
    rcases ih _ acc2 hrec kv hkv with h2 | h2
    · rcases weekAvgAdd_mem t wm _ acc acc' hacc' kv h2 with h3 | h3
      · exact Or.inl h3
      · rcases h3 with ⟨p, hp⟩
        exact Or.inr ⟨p, t, hp⟩
    · exact Or.inr h2

theorem overallAdd_lookup (sf : String) (td : JP.Pools) :
    ∀ (ts : List String) (acc acc2 : Row) (k0 : String),
      JP.overallAdd sf td ts acc = .ok acc2 →
      (∀ rest : String, k0 ≠ "Overall_" ++ rest) →
      lookupAssoc acc2 k0 = lookupAssoc acc k0 := by
  intro ts
  induction ts with
  | nil =>
    intro acc acc2 k0 h _
    simp only [JP.overallAdd] at h
    cases h
    rfl
  | cons t rest ih =>
    intro acc acc2 k0 h hk
    have hkey : ("Overall_" ++ sf ++ "_" ++ JP.labelOf t) ≠ k0 := by
      intro heq
      refine hk (sf ++ "_" ++ JP.labelOf t) ?_
      rw [← heq]
      simp [String.append_assoc]
    unfold JP.overallAdd at h
    by_cases hp : (JP.poolGet td t).isEmpty
    · simp only [hp, if_true, okBind] at h
      rw [ih _ acc2 k0 h hk]
      exact lookupAssoc_updateAssoc_ne acc _ _ k0 hkey
    · simp only [hp, Bool.false_eq_true, if_false, okBind] at h
      rcases pyBind_ok_iff.mp h with ⟨m, _, hrec⟩
      rw [ih _ acc2 k0 hrec hk]
      exact lookupAssoc_updateAssoc_ne acc _ _ k0 hkey

/-- C10: if `deletedLandmarks` is absent from the document, both the
summarizer's wide row and the explorer's session-overview row report
`deleted_landmarks = 0` (the `data.get("deletedLandmarks", 0)` default) —
not null, unlike ordinary missing fields. -/
theorem c10_deleted_landmarks_default_zero :
    ∀ fs : List (String × JValue), lookupField fs "deletedLandmarks" = none →
      (∀ project hullArea sf row,
        JP.processData project hullArea (.obj fs) sf = .ok row →
        lookupAssoc row "deleted_landmarks" = some (.num 0))
      ∧ (∀ row, DE.sessionOverviewRow (.obj fs) = .ok row →
        lookupAssoc row "deleted_landmarks" = some (.num 0)) := by
  intro fs hfs
  constructor
  · intro project hullArea sf row h
    simp only [JP.processData, pyBind_ok_iff] at h
    obtain ⟨pInfo, hpInfo, userID, hu, gender, hg, age, hage, sid, hsid, lmv, hlmv,
      tl, htl, deleted, hdel, hull, hhull, drv, hdrv, entries, hent, dates, hdates,
      parsed, hparsed, tdw, htdw, hrest⟩ := h
    obtain ⟨td, dm, wm⟩ := tdw
    simp only [pyBind_ok_iff] at hrest
    obtain ⟨wa, hwa, wo, hwo, hfinal⟩ := hrest
    have hd0 : deleted = JValue.num 0 := by
      simp [pyGetD, hfs] at hdel
      exact hdel.symm
    subst hd0
    cases hfinal
    have hwaShape : ∀ kv ∈ wa, kv.1 ≠ "deleted_landmarks" := by
      intro kv hkv
      rcases weekAvgTasks_mem wm JP.ordered4 [] wa
        (by simpa [JP.weekAvg] using hwa) kv hkv with h1 | h1
      · simp at h1
      · rcases h1 with ⟨p, t, hp⟩
        rw [hp]
        exact week_label_key_ne p t
    have hdmShape : ∀ kv ∈ dm, kv.1 ≠ "deleted_landmarks" := by
      intro kv hkv
      rcases dailyLoop_dm_mem sf entries 1 {} [] [] (td, dm, wm)
        (by simpa [JP.dailyAndWeekly] using htdw) kv hkv with h1 | h1
      · simp at h1
      · rcases h1 with ⟨rest, hr⟩
        rw [hr]
        exact day_key_ne rest
    rw [lookupAssoc_applyUpdates_ne wa _ _ hwaShape,
      lookupAssoc_applyUpdates_ne dm _ _ hdmShape,
      overallAdd_lookup sf td JP.ordered4 _ wo _ hwo
        (fun rest hr => overall_key_ne rest hr.symm)]
    simp +decide [lookupAssoc]
  · intro row h
    unfold DE.sessionOverviewRow at h
    simp only [pyBind_ok_iff] at h
    obtain ⟨lmv, hlmv, tot, htot, deleted, hdel, hfinal⟩ := h
    have hd0 : deleted = JValue.num 0 := by
      simp [pyGetD, hfs] at hdel
      exact hdel.symm
    subst hd0
    cases hfinal
    simp +decide [lookupAssoc]

/-- The summary row `process_file` produces for the empty document `{}`. -/
def row0 : Row := [("userID", .null), ("gender", .null), ("age", .null),
  ("sessionID", .null), ("total_landmarks", .num 0), ("deleted_landmarks", .num 0),
  ("convex_hull_area", .null), ("total_days_used", .num 0), ("first_use_date", .null),
  ("last_use_date", .null), ("total_duration_days", .null), ("engagement_ratio", .null),
  ("longest_gap_days", .null), ("longest_streak_days", .num 1),
  ("Overall_assessment_Pointing_Error", .null),
  ("Overall_assessment_Distance_Accuracy", .null),
  ("Overall_assessment_Kendall_Tau", .null),
  ("Overall_assessment_Mapping_R2", .null)]

/-- The C10 theorem applied to the empty document (no `deletedLandmarks`
field), whose summary row is `row0`. -/
theorem c10_deleted_landmarks_default_zero_witness :
    lookupAssoc row0 "deleted_landmarks" = some (.num 0) := by
  refine (c10_deleted_landmarks_default_zero [] rfl).1 projFix hullFix "assessment" row0 ?_
  simp +decide [JP.processData, pyGetD, JP.safe_extract, lookupField, pyLen,
    JP.calculate_convex_hull_area, JP.rawCoords, validCoords, pyIter, JP.usageDates,
    parseAllDates, sortedUniq, JP.dailyAndWeekly, JP.dailyLoop, JP.weekAvg,
    JP.weekAvgTasks, JP.weekAvgAdd, sortStr, strEndsWith, JP.overallAdd, JP.applyUpdates,
    updateAssoc, JP.ordered4, JP.poolGet, JP.labelOf, longestGapDays, longestStreakDays,
    gapsOf, pyMax, row0, bind, Except.bind]
